import Mathlib

/-!
# Docker event normalisation: `userspace/libsinsp/docker.cpp`

A shallow embedding of the event pipeline of the `docker` class (capture build,
`HAS_CAPTURE` defined): the lookup tables set up by the constructor, the event
queue fed by `set_event_json`, and `handle_event`, which filters one JSON event,
classifies it, resolves its scope and renders it as a user event.

Conventions of the embedding.

* A `std::string` is a list of characters, one element per C++ `char`.
* The logger `g_logger` and `std::cout` are modelled by the list of entries an
  operation writes, in program order.
* The JSON library, the logger, the event filter and `sinsp_user_event` are
  collaborators whose sources are not part of this file; each is modelled by a
  small definition or taken as a parameter, as stated at the definition.
* A library precondition that `handle_event` can violate (indexing a JSON value
  that is neither null nor an object) is modelled as an explicit exit point.
-/

set_option autoImplicit false

/-- A C++ `std::string`: a sequence of `char`s, one list element per `char`. -/
abbrev std_string := List Char

/-! ## The JSON library (`Json::Value`) -/

/-- Value of the JSON library (`Json::Value`), by value type. The library is an external
collaborator; this is a model of the operations `docker.cpp` uses. A floating-point value is
represented by what the code can observe of it, the text `asString` renders it to. -/
inductive Json where
  | null
  | bool (b : Bool)
  | int (i : Int)
  | uint (n : Nat)
  | real (text : std_string)
  | string (s : std_string)
  | array (items : List Json)
  | object (members : List (std_string × Json))

namespace Json

/-- Library call `Value::isNull()`. -/
def isNull : Json → Bool
  | .null => true
  | _ => false

/-- Library call `Value::isObject()`. -/
def isObject : Json → Bool
  | .object _ => true
  | _ => false

/-- Library call `isConvertibleTo(Json::stringValue)`: numbers, booleans, strings and null. -/
def isConvertibleTo_stringValue : Json → Bool
  | .null => true
  | .bool _ => true
  | .int _ => true
  | .uint _ => true
  | .real _ => true
  | .string _ => true
  | .array _ => false
  | .object _ => false

/-- Library call `asString()`. The code calls it only on values for which
`isConvertibleTo(Json::stringValue)` holds; on arrays and objects (where the library raises an
error) the model returns the empty string. -/
def asString : Json → std_string
  | .null => []
  | .bool b => if b then "true".toList else "false".toList
  | .int i => (toString i).toList
  | .uint n => (toString n).toList
  | .real text => text
  | .string s => s
  | .array _ => []
  | .object _ => []

/-- Modelled from the spec: the library call `isConvertibleTo(Json::uintValue)`, which decides
at line 261 whether the `time` member is read; its definition is in the JSON library, which is
not part of the sources. The spec has the time of an event an optional unsigned integer of 64
bits, and a time that cannot be parsed replaced by the maximum value: the test holds for the
integers from 0 to 2^64 - 1 and for no other value. -/
def isConvertibleTo_uintValue : Json → Bool
  | .null => false
  | .bool _ => false
  | .int i => decide (0 ≤ i ∧ i < 2 ^ 64)
  | .uint n => decide (n < 2 ^ 64)
  | .real _ => false
  | .string _ => false
  | .array _ => false
  | .object _ => false

/-- Modelled from the spec: the library call `asUInt64()`, defined in the JSON library, which is
not part of the sources: the value of an unsigned integer. The code calls it only on values for
which `isConvertibleTo(Json::uintValue)` holds; elsewhere the model returns 0. -/
def asUInt64 : Json → Nat
  | .null => 0
  | .bool _ => 0
  | .int i => i.toNat
  | .uint n => n
  | .real _ => 0
  | .string _ => 0
  | .array _ => 0
  | .object _ => 0

/-- Precondition of `operator[](key)`: the receiver is null or an object. On any other value
the library call fails (it raises an error instead of returning). -/
def indexable : Json → Bool
  | .null => true
  | .object _ => true
  | _ => false

/-- Result of `operator[](key)` on an indexable receiver: the member stored under `key`, and
the null value when there is none (or when the receiver is null). -/
def member : Json → std_string → Json
  | .object members, key => (members.lookup key).getD .null
  | _, _ => .null

/-- State of the receiver after the non-const `operator[](key)`: a missing member is created
holding null, and a null receiver becomes an object. -/
def with_member : Json → std_string → Json
  | .object members, key =>
      if (members.lookup key).isSome then .object members else .object (members ++ [(key, .null)])
  | .null, key => .object [(key, .null)]
  | v, _ => v

end Json

/-- Modelled from the spec: the helper `get_json_string(obj, name)` of libsinsp, whose
definition is in a file that is not part of the sources; the spec has the fields of an event
(`Type`, `Action`, `status`, `id`) read as strings, by name. The result is the member `name` of
`obj` as a string, empty when the member is missing, null or not convertible to a string. The
helper indexes `obj`, so `obj` must be `indexable`. -/
def get_json_string (obj : Json) (name : std_string) : std_string :=
  let json_val := obj.member name
  if !json_val.isNull && json_val.isConvertibleTo_stringValue then json_val.asString else []

/-! ## The logger and the user event -/

/-- Modelled from the spec: the levels of the diagnostic sink (`sinsp_logger::severity`, declared
in a header that is not part of the sources); the spec lists debug, info, warning, error and
trace. -/
inductive severity where
  | SEV_ERROR
  | SEV_WARNING
  | SEV_INFO
  | SEV_DEBUG
  | SEV_TRACE
  deriving DecidableEq, Repr

/-- Modelled from the spec: the severities of notifications (`sinsp_logger::event_severity`,
declared in a header that is not part of the sources); the constructor of `docker` uses
informational and warning. -/
inductive event_severity where
  | SEV_EVT_INFORMATION
  | SEV_EVT_WARNING
  deriving DecidableEq, Repr

/-- Arguments of `sinsp_user_event::to_string(epoch_time_s, name, description, scope, tags)`,
the rendering of a notification (defined in a file that is not part of the sources). -/
structure sinsp_user_event where
  epoch_time_s : Nat
  name : std_string
  description : std_string
  scope : std_string
  tags : List (std_string × std_string)
  deriving DecidableEq, Repr

/-- One thing written by an operation: a diagnostic `g_logger.log(msg, sev)`, a notification
`g_logger.log(sinsp_user_event::to_string(...), severity)`, or a line on `std::cout`. -/
inductive log_entry where
  | log (msg : std_string) (sev : severity)
  | user_event (evt : sinsp_user_event) (sev : event_severity)
  | cout (text : std_string)
  deriving DecidableEq, Repr

/-- Renderings `handle_event` delegates to collaborators absent from the sources, taken as
parameters: `write` is `Json::FastWriter().write`, and `severity_offset severity` is the integer
`severity - sinsp_logger::SEV_EVT_MIN`. -/
structure renderers where
  write : Json → std_string
  severity_offset : event_severity → Int

/-! ## The event filter -/

/-- Modelled from the spec: the event filter (`event_filter_ptr_t` points to it; its class is
declared in a header that is not part of the sources), by the answers to its three queries:
`allows_all()`, `allows_all(type)` and `has(type, status)`. -/
structure event_filter where
  allows_all : Bool
  allows_all_type : std_string → Bool
  has : std_string → std_string → Bool

/-- A query put to the event filter. -/
inductive filter_query where
  | allows_all
  | allows_all_type (type : std_string)
  | has (type : std_string) (status : std_string)
  deriving DecidableEq, Repr

/-! ## The `docker` object -/

/-- Members of the `docker` class that the event pipeline reads or writes. An element of
`m_events` is a `json_ptr_t`; `none` is the null pointer. -/
structure docker where
  m_verbose : Bool
  m_event_filter : Option event_filter
  m_machine_id : std_string
  m_container_events : List std_string
  m_image_events : List std_string
  m_volume_events : List std_string
  m_network_events : List std_string
  m_name_translation : List (std_string × std_string)
  m_severity_map : List (std_string × event_severity)
  m_events : List (Option Json)

/-- Where `handle_event` stops: `no_filter` (line 226 fails), `threw_on_root` (the first
`get_json_string` indexes a root that is not indexable), `not_permitted` (lines 365-369),
`not_supported` (lines 359-363), `threw_on_actor` (lines 275-276 index an `Actor` or
`Attributes` that is not indexable), `sent` (line 357). -/
inductive exit_point where
  | no_filter
  | threw_on_root
  | not_permitted
  | not_supported
  | threw_on_actor
  | sent
  deriving DecidableEq, Repr

/-- What one call of `handle_event` does: the entries it writes, the queries it puts to the
filter, both in program order, and the exit point where it stops. -/
structure outcome where
  log : List log_entry
  queries : List filter_query
  stopped : exit_point
  deriving DecidableEq, Repr

namespace docker

open severity event_severity

/-- Constructor, lines 29-32. -/
def container_events : List std_string :=
  ["attach".toList, "commit".toList, "copy".toList, "create".toList,
   "destroy".toList, "die".toList, "exec_create".toList, "exec_start".toList,
   "export".toList, "kill".toList, "oom".toList, "pause".toList, "rename".toList,
   "resize".toList, "restart".toList, "start".toList, "stop".toList, "top".toList,
   "unpause".toList, "update".toList]

/-- Constructor, line 33. -/
def image_events : List std_string :=
  ["delete".toList, "import".toList, "pull".toList, "push".toList, "tag".toList, "untag".toList]

/-- Constructor, line 34. -/
def volume_events : List std_string :=
  ["create".toList, "mount".toList, "unmount".toList, "destroy".toList]

/-- Constructor, line 35. -/
def network_events : List std_string :=
  ["create".toList, "connect".toList, "disconnect".toList, "destroy".toList]

/-- Constructor, lines 36-79. -/
def name_translation : List (std_string × std_string) :=
  [("attach".toList, "Attached".toList),
   ("commit".toList, "Committed".toList),
   ("copy".toList, "Copied".toList),
   ("create".toList, "Created".toList),
   ("destroy".toList, "Destroyed".toList),
   ("die".toList, "Died".toList),
   ("exec_create".toList, "Exec Created".toList),
   ("exec_start".toList, "Exec Started".toList),
   ("export".toList, "Exported".toList),
   ("kill".toList, "Killed".toList),
   ("oom".toList, "Out of Memory".toList),
   ("pause".toList, "Paused".toList),
   ("rename".toList, "Renamed".toList),
   ("resize".toList, "Resized".toList),
   ("restart".toList, "Restarted".toList),
   ("start".toList, "Started".toList),
   ("stop".toList, "Stopped".toList),
   ("top".toList, "Top".toList),
   ("unpause".toList, "Unpaused".toList),
   ("update".toList, "Updated".toList),
   ("delete".toList, "Deleted".toList),
   ("import".toList, "Imported".toList),
   ("pull".toList, "Pulled".toList),
   ("push".toList, "Pushed".toList),
   ("tag".toList, "Tagged".toList),
   ("untag".toList, "Untagged".toList),
   ("mount".toList, "Mounted".toList),
   ("unmount".toList, "Unmounted".toList),
   ("connect".toList, "Connected".toList),
   ("disconnect".toList, "Disconnected".toList)]

/-- Constructor, lines 92-128. -/
def severity_map : List (std_string × event_severity) :=
  [("attach".toList, SEV_EVT_INFORMATION),
   ("commit".toList, SEV_EVT_INFORMATION),
   ("copy".toList, SEV_EVT_INFORMATION),
   ("create".toList, SEV_EVT_INFORMATION),
   ("destroy".toList, SEV_EVT_WARNING),
   ("die".toList, SEV_EVT_WARNING),
   ("exec_create".toList, SEV_EVT_INFORMATION),
   ("exec_start".toList, SEV_EVT_INFORMATION),
   ("export".toList, SEV_EVT_INFORMATION),
   ("kill".toList, SEV_EVT_WARNING),
   ("oom".toList, SEV_EVT_WARNING),
   ("pause".toList, SEV_EVT_INFORMATION),
   ("rename".toList, SEV_EVT_INFORMATION),
   ("resize".toList, SEV_EVT_INFORMATION),
   ("restart".toList, SEV_EVT_WARNING),
   ("start".toList, SEV_EVT_INFORMATION),
   ("stop".toList, SEV_EVT_INFORMATION),
   ("top".toList, SEV_EVT_INFORMATION),
   ("unpause".toList, SEV_EVT_INFORMATION),
   ("update".toList, SEV_EVT_INFORMATION),
   ("delete".toList, SEV_EVT_INFORMATION),
   ("import".toList, SEV_EVT_INFORMATION),
   ("pull".toList, SEV_EVT_INFORMATION),
   ("push".toList, SEV_EVT_INFORMATION),
   ("tag".toList, SEV_EVT_INFORMATION),
   ("untag".toList, SEV_EVT_INFORMATION),
   ("mount".toList, SEV_EVT_INFORMATION),
   ("unmount".toList, SEV_EVT_INFORMATION),
   ("connect".toList, SEV_EVT_INFORMATION),
   ("disconnect".toList, SEV_EVT_INFORMATION)]

/-- State of a `docker` object when its constructor (lines 14-130) has run: the tables are
filled in, the machine identifier is the empty string and the event queue is empty. -/
def init (verbose : Bool) (filter : Option event_filter) : docker where
  m_verbose := verbose
  m_event_filter := filter
  m_machine_id := []
  m_container_events := container_events
  m_image_events := image_events
  m_volume_events := volume_events
  m_network_events := network_events
  m_name_translation := name_translation
  m_severity_map := severity_map
  m_events := []

/-- Modelled from the spec: `is_image_event(evt_name)`, declared in the class header (not part
of the sources): membership of the action in the image action set. -/
def is_image_event (d : docker) (evt_name : std_string) : Bool :=
  d.m_image_events.contains evt_name

/-- Modelled from the spec: `translate_name(event_name)`, declared in the class header (not part
of the sources): the label the display-name table gives the action; an action without a label is
returned unchanged. -/
def translate_name (d : docker) (event_name : std_string) : std_string :=
  match d.m_name_translation.lookup event_name with
  | some label => label
  | none => event_name

/-- Lines 216-222. -/
def set_event_json (d : docker) (json : Option Json) : docker :=
  if d.m_event_filter.isSome then { d with m_events := d.m_events ++ [json] } else d

/-- Line 228: the category is the `Type` member. -/
def event_type (root : Json) : std_string :=
  get_json_string root "Type".toList

/-- Lines 229-233: the action is the `Action` member, and the legacy `status` member when
`Action` is empty. -/
def event_status (root : Json) : std_string :=
  let status := get_json_string root "Action".toList
  if status.isEmpty then get_json_string root "status".toList else status

/-- Lines 235-243: the verdict of the filter on `type` and `status`, with the queries put to
the filter in the order they are made. -/
def is_allowed (f : event_filter) (type status : std_string) : Bool × List filter_query :=
  let is_allowed := f.allows_all
  if !is_allowed && !type.isEmpty then
    let is_allowed := f.allows_all_type type
    if !is_allowed && !status.isEmpty then
      (f.has type status,
        [filter_query.allows_all, filter_query.allows_all_type type, filter_query.has type status])
    else
      (is_allowed, [filter_query.allows_all, filter_query.allows_all_type type])
  else
    (is_allowed, [filter_query.allows_all])

/-- Lines 252-256: the identifier, without its "sha256:" marker when something follows it. -/
def event_id (root : Json) : std_string :=
  let id := get_json_string root "id".toList
  if id.length > 7 ∧ id.take 7 = "sha256:".toList then id.drop 7 else id

/-- Lines 259-264: the `time` member when it is not null and convertible to `uintValue`, and
the all-ones 64-bit value otherwise. -/
def event_time (root : Json) : Nat :=
  let t := root.member "time".toList
  if !t.isNull && t.isConvertibleTo_uintValue then t.asUInt64 else 2 ^ 64 - 1

/-- Line 274. -/
def event_actor (root : Json) : Json :=
  root.member "Actor".toList

/-- Line 275; the caller checks that `actor` is indexable. -/
def event_attrib (actor : Json) : Json :=
  if actor.isNull then Json.null else actor.member "Attributes".toList

/-- Lines 276-281; the caller checks that `attrib` is indexable. -/
def event_image (attrib : Json) : std_string :=
  let img := if attrib.isNull then Json.null else attrib.member "image".toList
  if !img.isNull && img.isConvertibleTo_stringValue then img.asString else []

/-- Lines 282-324: the scope, and what the resolution writes to the logger. -/
def event_scope (d : docker) (id image event_name : std_string) : std_string × List log_entry :=
  let scope : std_string :=
    if d.m_machine_id.length ≠ 0 then "host.mac=".toList ++ d.m_machine_id else []
  if id.length ≠ 0 then
    let scope := if scope.length ≠ 0 then scope ++ " and ".toList else scope
    if image = id then
      (scope ++ "container.image=".toList ++ image, [])
    else if d.is_image_event event_name then
      if event_name = "untag".toList ∨ event_name = "delete".toList then
        (scope ++ "container.id=".toList ++ id.take 12, [])
      else if !image.isEmpty then
        (scope ++ "container.image=".toList ++ image, [])
      else if !id.isEmpty then
        (scope ++ "container.image=".toList ++ id, [])
      else
        (scope, [log_entry.log
          "Cannot determine container image for Docker pull event (empty).".toList SEV_ERROR])
    else
      (scope ++ "container.id=".toList ++ id.take 12, [])
  else
    (scope, [])

/-- Lines 325-343: the description of the user event. Line 337 indexes `attrib` only when it is
an object. -/
def event_description (status : std_string) (actor attrib : Json) (image : std_string) :
    std_string :=
  let status := if status.length ≠ 0 then "Event: ".toList ++ status else status
  if !actor.isNull && actor.isObject then
    if !attrib.isNull && attrib.isObject then
      let status := if !image.isEmpty then status ++ "; Image: ".toList ++ image else status
      let name := attrib.member "name".toList
      if !name.isNull && name.isConvertibleTo_stringValue then
        status ++ "; Name: ".toList ++ name.asString
      else status
    else status
  else status

/-- Line 350: `type[0] = toupper(type[0])`. -/
def capitalize : std_string → std_string
  | [] => []
  | c :: cs => c.toUpper :: cs

/-- Lines 346-353: the name of the user event. -/
def event_title (d : docker) (type event_name : std_string) : std_string :=
  if event_name.length ≠ 0 then
    if type.length ≠ 0 then
      capitalize type ++ [' '] ++ d.translate_name event_name
    else event_name
  else event_name

/-- Lines 250-357: an event that passed the filter and has the severity `severity`. Line 260
indexes `root` without `const`, which creates a null `time` member when there is none, before
line 270 prints `root`. Line 357 logs a fixed text followed by `evt`, which line 356 has moved
from; the model records the fixed text. -/
def handle_supported (x : renderers) (d : docker) (root : Json) (type status : std_string)
    (severity : event_severity) : List log_entry × exit_point :=
  let event_name := status
  let id := event_id root
  let epoch_time_s := event_time root
  let head : List log_entry :=
    [log_entry.log ("Docker EVENT: severity for ".toList ++ status ++ ['='] ++
        (toString (x.severity_offset severity)).toList) SEV_DEBUG,
     log_entry.log ("Docker EVENT: name=".toList ++ event_name ++ ", id=".toList ++ id ++
        ", status=".toList ++ status ++ ", time=".toList ++ (toString epoch_time_s).toList)
        SEV_DEBUG] ++
    (if d.m_verbose then [log_entry.cout (x.write (root.with_member "time".toList) ++ ['\n'])]
     else [])
  let actor := event_actor root
  if !actor.indexable then (head, exit_point.threw_on_actor) else
  let attrib := event_attrib actor
  if !attrib.indexable then (head, exit_point.threw_on_actor) else
  let image := event_image attrib
  let scope := event_scope d id image event_name
  let status := event_description status actor attrib image
  let tags : List (std_string × std_string) := [("source".toList, "docker".toList)]
  let event_name := event_title d type event_name
  (head ++ scope.2 ++
    [log_entry.user_event ⟨epoch_time_s, event_name, status, scope.1, tags⟩ severity,
     log_entry.log "Docker EVENT: scheduled for sending\n".toList SEV_TRACE],
   exit_point.sent)

/-- Lines 224-371. -/
def handle_event (x : renderers) (d : docker) (root : Json) : outcome :=
  match d.m_event_filter with
  | none => ⟨[], [], exit_point.no_filter⟩
  | some f =>
    if !root.indexable then ⟨[], [], exit_point.threw_on_root⟩ else
    let type := event_type root
    let status := event_status root
    let seen : List log_entry :=
      [log_entry.log ("Docker EVENT: type=".toList ++ type ++ ", status=".toList ++ status)
        SEV_DEBUG]
    let verdict := is_allowed f type status
    if verdict.1 then
      let seen := seen ++
        [log_entry.log ("Docker EVENT: handling ".toList ++ status ++ " of ".toList ++ type)
          SEV_DEBUG]
      match d.m_severity_map.lookup status with
      | some severity =>
        let rest := handle_supported x d root type status severity
        ⟨seen ++ rest.1, verdict.2, rest.2⟩
      | none =>
        ⟨seen ++
          [log_entry.log ("Docker EVENT: status not supported: ".toList ++ status) SEV_ERROR,
           log_entry.log (x.write root) SEV_DEBUG],
         verdict.2, exit_point.not_supported⟩
    else
      ⟨seen ++
        [log_entry.log ("Docker EVENT: status not permitted by filter: ".toList ++ type ++ [':'] ++
           status) SEV_DEBUG,
         log_entry.log (x.write root) SEV_TRACE],
       verdict.2, exit_point.not_permitted⟩

end docker

/-! ## Reading an outcome -/

/-- The notifications among the entries written, in order. -/
def notifications : List log_entry → List (sinsp_user_event × event_severity)
  | [] => []
  | log_entry.user_event evt sev :: rest => (evt, sev) :: notifications rest
  | _ :: rest => notifications rest

/-- The diagnostics of level `sev` among the entries written, in order. -/
def diagnostics (sev : severity) : List log_entry → List std_string
  | [] => []
  | log_entry.log msg s :: rest =>
      if s = sev then msg :: diagnostics sev rest else diagnostics sev rest
  | _ :: rest => diagnostics sev rest

/-! ## Conditions on an event -/

namespace docker

/-- The event has the shape `handle_event` can index: the root is null or an object, and so are
its `Actor` member and the `Attributes` member of the actor. -/
def well_formed (root : Json) : Bool :=
  root.indexable && (event_actor root).indexable && (event_attrib (event_actor root)).indexable

/-- Lines 226-244: a filter is set, the root can be read, and the filter allows the type and
action read from it. -/
def accepts (d : docker) (root : Json) : Bool :=
  match d.m_event_filter with
  | none => false
  | some f => root.indexable && (is_allowed f (event_type root) (event_status root)).1

/-- Lines 226-244 and 365: a filter is set, the root can be read, and the filter does not allow
the type and action read from it. -/
def rejects (d : docker) (root : Json) : Bool :=
  match d.m_event_filter with
  | none => false
  | some f => root.indexable && !(is_allowed f (event_type root) (event_status root)).1

/-- The user event lines 250-355 build from the event. -/
def rendered (d : docker) (root : Json) : sinsp_user_event :=
  let status := event_status root
  let actor := event_actor root
  let attrib := event_attrib actor
  let image := event_image attrib
  ⟨event_time root, event_title d (event_type root) status,
   event_description status actor attrib image, (event_scope d (event_id root) image status).1,
   [("source".toList, "docker".toList)]⟩

/-- The host clause that opens a scope, with the joining " and ": lines 282-296 for a non-empty
identifier. -/
def host_clause (d : docker) : std_string :=
  if d.m_machine_id = [] then [] else "host.mac=".toList ++ d.m_machine_id ++ " and ".toList

/-- The identifier with a leading "sha256:" removed, the normalisation as the specification
words it. -/
def strip_sha256 (id : std_string) : std_string :=
  if id.take 7 = "sha256:".toList then id.drop 7 else id

/-- The exit points behind the filter stage (line 244 holds). -/
def past_filter : exit_point → Bool
  | exit_point.not_supported => true
  | exit_point.threw_on_actor => true
  | exit_point.sent => true
  | _ => false

end docker

/-! ## Sample collaborators and events -/

namespace sample

/-- Renderers that print nothing and number every severity 0. -/
def quiet : renderers := ⟨fun _ => [], fun _ => 0⟩

/-- A filter whose global query answers true. -/
def allow_everything : event_filter := ⟨true, fun _ => false, fun _ _ => false⟩

/-- A filter that answers false to the global query and true to every category-wide and exact
query. -/
def allow_each_category : event_filter := ⟨false, fun _ => true, fun _ _ => true⟩

/-- A filter that denies the category "network" entirely and allows every other category. -/
def deny_network : event_filter :=
  ⟨false, fun type => decide (type ≠ "network".toList), fun type _ => decide (type ≠ "network".toList)⟩

/-- A `docker` object as constructed, with the filter `f`. -/
def object (f : event_filter) : docker := docker.init false (some f)

/-- Scenario A: a container dies; no actor attributes. -/
def container_die : Json :=
  Json.object [("Type".toList, Json.string "container".toList),
               ("Action".toList, Json.string "die".toList),
               ("id".toList, Json.string "abcdef0123456789".toList)]

/-- Scenario B: an image is untagged; the identifier is the digest of the image attribute. -/
def image_untag : Json :=
  Json.object [("Type".toList, Json.string "image".toList),
               ("Action".toList, Json.string "untag".toList),
               ("id".toList, Json.string "sha256:deadbeefcafef00d0123456789".toList),
               ("Actor".toList, Json.object [("Attributes".toList,
                  Json.object [("image".toList, Json.string "deadbeefcafef00d0123456789".toList)])])]

/-- An image is deleted; the identifier is the digest of the image attribute. -/
def image_delete : Json :=
  Json.object [("Type".toList, Json.string "image".toList),
               ("Action".toList, Json.string "delete".toList),
               ("id".toList, Json.string "sha256:0123456789abcdef".toList),
               ("Actor".toList, Json.object [("Attributes".toList,
                  Json.object [("image".toList, Json.string "0123456789abcdef".toList)])])]

/-- An image is deleted; the image attribute names a tag, not the digest. -/
def image_delete_tagged : Json :=
  Json.object [("Type".toList, Json.string "image".toList),
               ("Action".toList, Json.string "delete".toList),
               ("id".toList, Json.string "sha256:0123456789abcdef".toList),
               ("Actor".toList, Json.object [("Attributes".toList,
                  Json.object [("image".toList, Json.string "busybox:latest".toList)])])]

/-- A container dies; the identifier and the image attribute are both the empty string. -/
def empty_id : Json :=
  Json.object [("Type".toList, Json.string "container".toList),
               ("Action".toList, Json.string "die".toList),
               ("id".toList, Json.string []),
               ("Actor".toList, Json.object [("Attributes".toList,
                  Json.object [("image".toList, Json.string [])])])]

/-- An event in the legacy format: the action is in `status`, and there is no `Type`. -/
def legacy_die : Json :=
  Json.object [("status".toList, Json.string "die".toList),
               ("id".toList, Json.string "abcdef0123456789".toList)]

/-- Scenario C: an action the severity map does not know. -/
def frobnicate : Json :=
  Json.object [("Type".toList, Json.string "container".toList),
               ("Action".toList, Json.string "frobnicate".toList),
               ("id".toList, Json.string "abcdef0123456789".toList)]

/-- Scenario D: a network is created. -/
def network_create : Json :=
  Json.object [("Type".toList, Json.string "network".toList),
               ("Action".toList, Json.string "create".toList),
               ("id".toList, Json.string "abcdef0123456789".toList)]

/-- A container starts; the image and name attributes are both present and empty. -/
def empty_attributes : Json :=
  Json.object [("Type".toList, Json.string "container".toList),
               ("Action".toList, Json.string "start".toList),
               ("id".toList, Json.string "abcdef0123456789".toList),
               ("Actor".toList, Json.object [("Attributes".toList,
                  Json.object [("image".toList, Json.string []),
                               ("name".toList, Json.string [])])])]

/-- A container starts; image and name attributes are set. -/
def container_start : Json :=
  Json.object [("Type".toList, Json.string "container".toList),
               ("Action".toList, Json.string "start".toList),
               ("id".toList, Json.string "abcdef0123456789".toList),
               ("time".toList, Json.int 1466000000),
               ("Actor".toList, Json.object [("Attributes".toList,
                  Json.object [("image".toList, Json.string "busybox".toList),
                               ("name".toList, Json.string "web".toList)])])]

end sample

/-! ## The processing cycle -/

/-- What the loop of `collect_data` does: the entries written, the payloads passed to
`handle_event`, both in program order, and whether an error raised by `handle_event` left the
loop. -/
structure loop_result where
  log : List log_entry
  handled : List Json
  threw : Bool

/-- What one call of `collect_data` does: the object afterwards, and the result of the loop. -/
structure cycle where
  state : docker
  log : List log_entry
  handled : List Json
  threw : Bool

namespace docker

/-- The exit points at which `handle_event` does not return: a library call has failed. -/
def threw : exit_point → Bool
  | exit_point.threw_on_root => true
  | exit_point.threw_on_actor => true
  | _ => false

/-- Lines 205-207: the diagnostic for a queue item that is not handled. -/
def event_error (evt : Option Json) : log_entry :=
  log_entry.log ("Docker event error: ".toList ++
    (match evt with
     | none => "event is null.".toList
     | some json => if json.isNull then "JSON is null.".toList else "Unknown".toList))
    severity.SEV_ERROR

/-- Lines 197-209: the loop over the queue. `collect_data` does not catch anything, so a
failure inside `handle_event` ends the loop. -/
def handle_events (x : renderers) (d : docker) : List (Option Json) → loop_result
  | [] => ⟨[], [], false⟩
  | evt :: rest =>
    match evt with
    | some json =>
      if !json.isNull then
        let done := handle_event x d json
        if threw done.stopped then ⟨done.log, [json], true⟩
        else
          let others := handle_events x d rest
          ⟨done.log ++ others.log, json :: others.handled, others.threw⟩
      else
        let others := handle_events x d rest
        ⟨event_error evt :: others.log, others.handled, others.threw⟩
    | none =>
      let others := handle_events x d rest
      ⟨event_error evt :: others.log, others.handled, others.threw⟩

/-- Lines 190-213. The collector `m_collector` is a collaborator absent from the sources:
`subscription_count` is the answer of `m_collector.subscription_count()`, and `arrived` are the
payloads that `m_collector.get_data()` passes, in order, to `set_event_json`, the callback
registered at line 87. When the loop is left by a failure, line 210 is not reached. -/
def collect_data (x : renderers) (d : docker) (subscription_count : Nat)
    (arrived : List (Option Json)) : cycle :=
  if subscription_count ≠ 0 then
    let d := arrived.foldl set_event_json d
    if d.m_events.length ≠ 0 then
      let looped := handle_events x d d.m_events
      if looped.threw then ⟨d, looped.log, looped.handled, true⟩
      else ⟨{ d with m_events := [] }, looped.log, looped.handled, false⟩
    else ⟨d, [], [], false⟩
  else ⟨d, [], [], false⟩

end docker

namespace sample

/-- A container starts; the `time` member is 2^32, which does not fit 32 bits. -/
def time_large : Json :=
  Json.object [("Type".toList, Json.string "container".toList),
               ("Action".toList, Json.string "start".toList),
               ("id".toList, Json.string "abcdef0123456789".toList),
               ("time".toList, Json.uint 4294967296)]

/-- An image is pulled; the event names neither an identifier nor an image. -/
def pull_unnamed : Json :=
  Json.object [("Type".toList, Json.string "image".toList),
               ("Action".toList, Json.string "pull".toList)]

/-- An image is pulled; the identifier is the reference and the image attribute is absent. -/
def pull_by_id : Json :=
  Json.object [("Type".toList, Json.string "image".toList),
               ("Action".toList, Json.string "pull".toList),
               ("id".toList, Json.string "registry.example.com/busybox:latest".toList)]

/-- An image is tagged; the image attribute differs from the identifier. -/
def tag_named : Json :=
  Json.object [("Type".toList, Json.string "image".toList),
               ("Action".toList, Json.string "tag".toList),
               ("id".toList, Json.string "sha256:0123456789abcdef".toList),
               ("Actor".toList, Json.object [("Attributes".toList,
                  Json.object [("image".toList, Json.string "busybox:latest".toList)])])]

/-- An image is tagged; the image attribute is present and holds the empty string. -/
def tag_empty_image : Json :=
  Json.object [("Type".toList, Json.string "image".toList),
               ("Action".toList, Json.string "tag".toList),
               ("id".toList, Json.string "sha256:0123456789abcdef".toList),
               ("Actor".toList, Json.object [("Attributes".toList,
                  Json.object [("image".toList, Json.string [])])])]

/-- A container dies; the identifier is the marker "sha256:" with nothing after it. -/
def marker_only : Json :=
  Json.object [("Type".toList, Json.string "container".toList),
               ("Action".toList, Json.string "die".toList),
               ("id".toList, Json.string "sha256:".toList)]

/-- The event `container_die` in the legacy format: the action is in `status`. -/
def container_die_legacy : Json :=
  Json.object [("Type".toList, Json.string "container".toList),
               ("status".toList, Json.string "die".toList),
               ("id".toList, Json.string "abcdef0123456789".toList)]

/-- A `docker` object as constructed with the filter `f`, then given the machine identifier
"00:11:22:33:44:55". -/
def object_on_host (f : event_filter) : docker :=
  { docker.init false (some f) with m_machine_id := "00:11:22:33:44:55".toList }

end sample

/-! ## Auxiliary facts -/

open docker

theorem notifications_append (a b : List log_entry) :
    notifications (a ++ b) = notifications a ++ notifications b := by
  induction a with
  | nil => rfl
  | cons e rest ih => cases e <;> simp [notifications, ih]

theorem diagnostics_append (sev : severity) (a b : List log_entry) :
    diagnostics sev (a ++ b) = diagnostics sev a ++ diagnostics sev b := by
  induction a with
  | nil => rfl
  | cons e rest ih =>
    cases e with
    | log msg s => by_cases h : s = sev <;> simp [diagnostics, ih, h]
    | user_event evt s => simp [diagnostics, ih]
    | cout text => simp [diagnostics, ih]

theorem notifications_event_scope (d : docker) (id image event_name : std_string) :
    notifications (event_scope d id image event_name).2 = [] := by
  simp only [event_scope]
  repeat' split
  all_goals rfl

/-- An accepted, well-formed event with a severity-map entry is sent: `handle_event` reaches
line 357 and writes exactly one notification, the rendered event at the severity found. -/
theorem handle_event_sent (x : renderers) (d : docker) (root : Json) (sev : event_severity)
    (hw : well_formed root = true) (ha : d.accepts root = true)
    (hs : d.m_severity_map.lookup (event_status root) = some sev) :
    (handle_event x d root).stopped = exit_point.sent ∧
    notifications (handle_event x d root).log = [(d.rendered root, sev)] := by
  simp only [well_formed, Bool.and_eq_true] at hw
  obtain ⟨⟨hr, h1⟩, h2⟩ := hw
  unfold accepts at ha
  cases hf : d.m_event_filter with
  | none => simp [hf] at ha
  | some f =>
    simp only [hf, Bool.and_eq_true] at ha
    simp [handle_event, hf, hr, ha.2, hs, handle_supported, h1, h2, notifications_append,
      notifications, notifications_event_scope, rendered]
    split_ifs <;> simp [notifications]

/-- Every notification `handle_event` writes comes from an accepted, well-formed event with a
severity-map entry, and is the rendered event. -/
theorem handle_event_notification (x : renderers) (d : docker) (root : Json)
    (evt : sinsp_user_event) (sev : event_severity)
    (h : (evt, sev) ∈ notifications (handle_event x d root).log) :
    well_formed root = true ∧ d.accepts root = true ∧
    d.m_severity_map.lookup (event_status root) = some sev ∧ evt = d.rendered root := by
  unfold handle_event at h
  cases hf : d.m_event_filter with
  | none => simp [hf, notifications] at h
  | some f =>
    simp only [hf] at h
    by_cases hr : root.indexable = true
    · by_cases ha : (is_allowed f (event_type root) (event_status root)).1 = true
      · cases hs : d.m_severity_map.lookup (event_status root) with
        | none => simp [hr, ha, hs, notifications] at h
        | some s =>
          by_cases h1 : (event_actor root).indexable = true
          · by_cases h2 : (event_attrib (event_actor root)).indexable = true
            · have hw : well_formed root = true := by simp [well_formed, hr, h1, h2]
              have hacc : d.accepts root = true := by simp [accepts, hf, ha, hr]
              have := (handle_event_sent x d root s hw hacc hs).2
              unfold handle_event at this
              simp only [hf] at this
              rw [this] at h
              simp at h
              obtain ⟨rfl, rfl⟩ := h
              exact ⟨hw, hacc, rfl, rfl⟩
            · simp [hr, ha, hs, handle_supported, h1, h2, notifications_append, notifications] at h
              split_ifs at h <;> simp [notifications] at h
          · simp [hr, ha, hs, handle_supported, h1, notifications_append, notifications] at h
            split_ifs at h <;> simp [notifications] at h
      · simp [hr, ha, notifications] at h
    · simp [hr, notifications] at h

/-- Where the specification's normalisation leaves a non-empty identifier, lines 252-256
compute the same identifier. -/
theorem event_id_of_strip (root : Json)
    (h : strip_sha256 (get_json_string root "id".toList) ≠ []) :
    event_id root = strip_sha256 (get_json_string root "id".toList) := by
  unfold event_id strip_sha256 at *
  simp only []
  by_cases hp : (get_json_string root "id".toList).take 7 = "sha256:".toList
  · have hl : (get_json_string root "id".toList).length > 7 := by
      by_contra hle
      apply h
      rw [if_pos hp]
      simp only [List.drop_eq_nil_iff]
      omega
    rw [if_pos hp, if_pos ⟨hl, hp⟩]
  · rw [if_neg hp, if_neg (fun hh => hp hh.2)]

theorem scope_image_equals_id (d : docker) (id image event_name : std_string)
    (hid : id ≠ []) (h : image = id) :
    (event_scope d id image event_name).1 =
      d.host_clause ++ "container.image=".toList ++ image := by
  by_cases hm : d.m_machine_id = []
  · simp [event_scope, host_clause, hm, hid, h]
  · simp [event_scope, host_clause, hm, hid, h]

theorem scope_untag_delete (d : docker) (id image event_name : std_string)
    (hid : id ≠ []) (h : image ≠ id)
    (hu : event_name = "untag".toList ∨ event_name = "delete".toList) :
    (event_scope d id image event_name).1 =
      d.host_clause ++ "container.id=".toList ++ id.take 12 := by
  by_cases hm : d.m_machine_id = []
  · by_cases hi : d.is_image_event event_name = true
    · rcases hu with hu | hu <;> simp [event_scope, host_clause, hm, hid, h, hi, hu]
    · simp [event_scope, host_clause, hm, hid, h, hi]
  · by_cases hi : d.is_image_event event_name = true
    · rcases hu with hu | hu <;> simp [event_scope, host_clause, hm, hid, h, hi, hu]
    · simp [event_scope, host_clause, hm, hid, h, hi]

theorem scope_container_id (d : docker) (id image event_name : std_string)
    (hid : id ≠ []) (h : image ≠ id) (hi : d.is_image_event event_name = false) :
    (event_scope d id image event_name).1 =
      d.host_clause ++ "container.id=".toList ++ id.take 12 := by
  by_cases hm : d.m_machine_id = []
  · simp [event_scope, host_clause, hm, hid, h, hi]
  · simp [event_scope, host_clause, hm, hid, h, hi]

theorem scope_empty_id (d : docker) (image event_name : std_string) :
    (event_scope d [] image event_name).1 =
      if d.m_machine_id = [] then [] else "host.mac=".toList ++ d.m_machine_id := by
  by_cases hm : d.m_machine_id = [] <;> simp [event_scope, hm]

/-! ## Scope resolution -/

/-- C1 (claim as stated fails): the event `sample.empty_id` is accepted, its action "die" is in
the severity map, and its image attribute equals its identifier (both are the empty string, so
there is no "sha256:" to strip); `handle_event` sends it with the empty scope, which is not the
clause "container.image=" followed by the image. -/
theorem C1_counterexample :
    (sample.object sample.allow_everything).accepts sample.empty_id = true ∧
    (sample.object sample.allow_everything).m_severity_map.lookup
      (event_status sample.empty_id) = some event_severity.SEV_EVT_WARNING ∧
    event_image (event_attrib (event_actor sample.empty_id)) =
      strip_sha256 (get_json_string sample.empty_id "id".toList) ∧
    notifications (handle_event sample.quiet (sample.object sample.allow_everything)
      sample.empty_id).log =
      [(⟨2 ^ 64 - 1, "Container Died".toList, "Event: die".toList, [],
         [("source".toList, "docker".toList)]⟩, event_severity.SEV_EVT_WARNING)] ∧
    ([] : std_string) ≠ "container.image=".toList ++
      event_image (event_attrib (event_actor sample.empty_id)) := by
  decide

/-- C1 (amended): every accepted, well-formed event with an action of the severity map is sent
as one notification. When its image attribute equals the identifier with a leading "sha256:"
removed, and that identifier is not empty, the scope is the host clause (if any) followed by
"container.image=" and the image, whatever the category and the action. When the identifier as
received is empty, the scope holds no entity clause: it is the host-identity clause alone, and
empty without a machine identifier. -/
theorem C1_scope_image_equals_id (x : renderers) (d : docker) (root : Json)
    (sev : event_severity)
    (hw : well_formed root = true) (ha : d.accepts root = true)
    (hs : d.m_severity_map.lookup (event_status root) = some sev) :
    ∃ evt, notifications (handle_event x d root).log = [(evt, sev)] ∧
      (strip_sha256 (get_json_string root "id".toList) ≠ [] →
        event_image (event_attrib (event_actor root)) =
          strip_sha256 (get_json_string root "id".toList) →
        evt.scope = d.host_clause ++ "container.image=".toList ++
          event_image (event_attrib (event_actor root))) ∧
      (get_json_string root "id".toList = [] →
        evt.scope =
          if d.m_machine_id = [] then [] else "host.mac=".toList ++ d.m_machine_id) := by
  refine ⟨d.rendered root, (handle_event_sent x d root sev hw ha hs).2, ?_, ?_⟩
  · intro hne himg
    have hid := event_id_of_strip root hne
    exact scope_image_equals_id d (event_id root) _ _ (hid ▸ hne) (himg.trans hid.symm)
  · intro hraw
    have hid : event_id root = [] := by
      unfold event_id
      simp only []
      rw [hraw]
      rfl
    have hsc : (d.rendered root).scope =
        (event_scope d (event_id root) (event_image (event_attrib (event_actor root)))
          (event_status root)).1 := rfl
    rw [hsc, hid]
    exact scope_empty_id d _ _

/-- C1 (witness, scenario B): action "untag", identifier "sha256:deadbeefcafef00d0123456789",
image "deadbeefcafef00d0123456789", no machine identifier. -/
theorem C1_scope_image_equals_id_witness :
    ((sample.object sample.allow_everything).host_clause ++ "container.image=".toList ++
        event_image (event_attrib (event_actor sample.image_untag)) =
      "container.image=deadbeefcafef00d0123456789".toList ∧
     strip_sha256 (get_json_string sample.image_untag "id".toList) ≠ [] ∧
     event_image (event_attrib (event_actor sample.image_untag)) =
       strip_sha256 (get_json_string sample.image_untag "id".toList)) ∧
    ∃ evt, notifications (handle_event sample.quiet (sample.object sample.allow_everything)
        sample.image_untag).log = [(evt, event_severity.SEV_EVT_INFORMATION)] ∧
      (strip_sha256 (get_json_string sample.image_untag "id".toList) ≠ [] →
        event_image (event_attrib (event_actor sample.image_untag)) =
          strip_sha256 (get_json_string sample.image_untag "id".toList) →
        evt.scope = (sample.object sample.allow_everything).host_clause ++
          "container.image=".toList ++
          event_image (event_attrib (event_actor sample.image_untag))) ∧
      (get_json_string sample.image_untag "id".toList = [] →
        evt.scope =
          if (sample.object sample.allow_everything).m_machine_id = [] then []
          else "host.mac=".toList ++ (sample.object sample.allow_everything).m_machine_id) :=
  ⟨by decide,
   C1_scope_image_equals_id sample.quiet (sample.object sample.allow_everything)
     sample.image_untag event_severity.SEV_EVT_INFORMATION
     (by decide) (by decide) (by decide)⟩

/-- C2 (claim as stated fails): `sample.image_delete` is an accepted image event with action
"delete" whose image attribute equals the identifier once "sha256:" is stripped; its scope is
"container.image=" followed by the image, not "container.id=" followed by the first 12
characters of the identifier. -/
theorem C2_counterexample :
    (sample.object sample.allow_everything).accepts sample.image_delete = true ∧
    event_type sample.image_delete = "image".toList ∧
    event_status sample.image_delete = "delete".toList ∧
    (sample.object sample.allow_everything).is_image_event
      (event_status sample.image_delete) = true ∧
    event_id sample.image_delete = "0123456789abcdef".toList ∧
    (notifications (handle_event sample.quiet (sample.object sample.allow_everything)
      sample.image_delete).log).map (fun n => n.1.scope) =
      ["container.image=0123456789abcdef".toList] ∧
    "container.image=0123456789abcdef".toList ≠
      "container.id=".toList ++ (event_id sample.image_delete).take 12 ∧
    "container.image=0123456789abcdef".toList ≠
      "container.id=".toList ++ (get_json_string sample.image_delete "id".toList).take 12 := by
  decide

/-- C2 (amended): for every accepted, well-formed event whose action is "untag" or "delete",
on an object with the constructor's severity map, whose identifier (as lines 252-256 normalise
it) is non-empty and differs from the image attribute, `handle_event` sends one notification,
and its scope is the host clause (if any) followed by "container.id=" and the first 12
characters of the identifier, also when an image attribute is present. -/
theorem C2_scope_untag_delete (x : renderers) (d : docker) (root : Json)
    (ht : d.m_severity_map = docker.severity_map)
    (hw : well_formed root = true) (ha : d.accepts root = true)
    (hu : event_status root = "untag".toList ∨ event_status root = "delete".toList)
    (hid : event_id root ≠ [])
    (hne : event_image (event_attrib (event_actor root)) ≠ event_id root) :
    ∃ evt, notifications (handle_event x d root).log =
        [(evt, event_severity.SEV_EVT_INFORMATION)] ∧
      evt.scope = d.host_clause ++ "container.id=".toList ++ (event_id root).take 12 := by
  have hs : d.m_severity_map.lookup (event_status root) =
      some event_severity.SEV_EVT_INFORMATION := by
    rw [ht]
    rcases hu with hu | hu <;> rw [hu] <;> decide
  exact ⟨d.rendered root, (handle_event_sent x d root _ hw ha hs).2,
    scope_untag_delete d (event_id root) _ _ hid hne hu⟩

/-- C2 (witness): an image is deleted, the identifier is a digest and the image attribute is
the tag "busybox:latest". -/
theorem C2_scope_untag_delete_witness :
    ((sample.object sample.allow_everything).host_clause ++ "container.id=".toList ++
        (event_id sample.image_delete_tagged).take 12 = "container.id=0123456789ab".toList) ∧
    ∃ evt, notifications (handle_event sample.quiet (sample.object sample.allow_everything)
        sample.image_delete_tagged).log = [(evt, event_severity.SEV_EVT_INFORMATION)] ∧
      evt.scope = (sample.object sample.allow_everything).host_clause ++
        "container.id=".toList ++ (event_id sample.image_delete_tagged).take 12 :=
  ⟨by decide,
   C2_scope_untag_delete sample.quiet (sample.object sample.allow_everything)
     sample.image_delete_tagged rfl (by decide) (by decide) (Or.inr (by decide)) (by decide)
     (by decide)⟩

/-- C3: for every accepted, well-formed event with an action of the severity map that is not in
the image action set, whose identifier (as lines 252-256 normalise it) is non-empty and differs
from the image attribute, `handle_event` sends one notification at the severity of the action,
and its scope is the host clause (if any) followed by "container.id=" and the first 12
characters of the identifier, which is the whole identifier when it has at most 12. -/
theorem C3_scope_container_id (x : renderers) (d : docker) (root : Json)
    (sev : event_severity)
    (hw : well_formed root = true) (ha : d.accepts root = true)
    (hs : d.m_severity_map.lookup (event_status root) = some sev)
    (hi : d.is_image_event (event_status root) = false)
    (hid : event_id root ≠ [])
    (hne : event_id root ≠ event_image (event_attrib (event_actor root))) :
    ∃ evt, notifications (handle_event x d root).log = [(evt, sev)] ∧
      evt.scope = d.host_clause ++ "container.id=".toList ++ (event_id root).take 12 ∧
      ((event_id root).length ≤ 12 →
        evt.scope = d.host_clause ++ "container.id=".toList ++ event_id root) := by
  have hsc := scope_container_id d (event_id root)
    (event_image (event_attrib (event_actor root))) (event_status root) hid (Ne.symm hne) hi
  refine ⟨d.rendered root, (handle_event_sent x d root sev hw ha hs).2, hsc, ?_⟩
  intro hlen
  have hsc2 : (d.rendered root).scope =
      d.host_clause ++ "container.id=".toList ++ (event_id root).take 12 := hsc
  rw [hsc2, List.take_of_length_le hlen]

/-- C3 (witness, scenario A): category "container", action "die", identifier
"abcdef0123456789", no image, no machine identifier: severity warning and scope
"container.id=abcdef012345". -/
theorem C3_scope_container_id_witness :
    ((sample.object sample.allow_everything).host_clause ++ "container.id=".toList ++
        (event_id sample.container_die).take 12 = "container.id=abcdef012345".toList) ∧
    ∃ evt, notifications (handle_event sample.quiet (sample.object sample.allow_everything)
        sample.container_die).log = [(evt, event_severity.SEV_EVT_WARNING)] ∧
      evt.scope = (sample.object sample.allow_everything).host_clause ++
        "container.id=".toList ++ (event_id sample.container_die).take 12 ∧
      ((event_id sample.container_die).length ≤ 12 →
        evt.scope = (sample.object sample.allow_everything).host_clause ++
          "container.id=".toList ++ event_id sample.container_die) :=
  ⟨by decide,
   C3_scope_container_id sample.quiet (sample.object sample.allow_everything)
     sample.container_die event_severity.SEV_EVT_WARNING
     (by decide) (by decide) (by decide) (by decide) (by decide) (by decide)⟩

/-! ## The filter stage -/

theorem is_allowed_verdict (f : event_filter) (type status : std_string) :
    (is_allowed f type status).1 =
      (f.allows_all || (!type.isEmpty && (f.allows_all_type type ||
        (!status.isEmpty && f.has type status)))) := by
  unfold is_allowed
  cases f.allows_all <;> cases type.isEmpty <;> cases f.allows_all_type type <;>
    cases status.isEmpty <;> simp

theorem is_allowed_queries (f : event_filter) (type status : std_string) :
    (is_allowed f type status).2 =
      if f.allows_all = true ∨ type = [] then [filter_query.allows_all]
      else if f.allows_all_type type = true ∨ status = [] then
        [filter_query.allows_all, filter_query.allows_all_type type]
      else [filter_query.allows_all, filter_query.allows_all_type type,
        filter_query.has type status] := by
  unfold is_allowed
  cases f.allows_all <;> cases type <;> cases f.allows_all_type _ <;>
    cases status <;> simp

theorem handle_supported_stopped (x : renderers) (d : docker) (root : Json)
    (type status : std_string) (sev : event_severity) :
    past_filter (handle_supported x d root type status sev).2 = true := by
  unfold handle_supported
  simp only []
  split_ifs <;> rfl

theorem handle_event_stopped (x : renderers) (d : docker) (f : event_filter) (root : Json)
    (hf : d.m_event_filter = some f) (hr : root.indexable = true) :
    past_filter (handle_event x d root).stopped =
      (is_allowed f (event_type root) (event_status root)).1 := by
  unfold handle_event
  simp only [hf, hr]
  cases hv : (is_allowed f (event_type root) (event_status root)).1
  · simp [past_filter]
  · cases hs : d.m_severity_map.lookup (event_status root) with
    | none => simp [hs, past_filter]
    | some sev => simp [hs, handle_supported_stopped]

theorem handle_event_queries (x : renderers) (d : docker) (f : event_filter) (root : Json)
    (hf : d.m_event_filter = some f) :
    (handle_event x d root).queries =
      if root.indexable = true then (is_allowed f (event_type root) (event_status root)).2
      else [] := by
  unfold handle_event
  simp only [hf]
  by_cases hr : root.indexable = true
  · simp only [hr]
    cases hv : (is_allowed f (event_type root) (event_status root)).1
    · simp
    · cases hs : d.m_severity_map.lookup (event_status root) <;> simp [hs]
  · simp [hr]

/-- C4 (claim as stated fails): the filter `sample.allow_each_category` answers true to the
category-wide query for every category, the empty one included; the event `sample.legacy_die`
has the empty category, and `handle_event` stops it at the filter. -/
theorem C4_counterexample :
    (sample.allow_each_category.allows_all = true ∨
      sample.allow_each_category.allows_all_type (event_type sample.legacy_die) = true ∨
      sample.allow_each_category.has (event_type sample.legacy_die)
        (event_status sample.legacy_die) = true) ∧
    event_type sample.legacy_die = [] ∧
    (handle_event sample.quiet (sample.object sample.allow_each_category)
      sample.legacy_die).stopped = exit_point.not_permitted ∧
    past_filter (handle_event sample.quiet (sample.object sample.allow_each_category)
      sample.legacy_die).stopped = false := by
  decide

/-- C4 (amended): with a filter present, `handle_event` lets a readable event past the filter
stage exactly when `allows_all()` is true, or the category is non-empty and `allows_all(type)`
is true, or category and action are both non-empty and `has(type, status)` is true; a true
category-wide answer for a non-empty category accepts the event whatever the exact-match query
would answer. -/
theorem C4_filter_stage (x : renderers) (d : docker) (f : event_filter) (root : Json)
    (hf : d.m_event_filter = some f) (hr : root.indexable = true) :
    (past_filter (handle_event x d root).stopped = true ↔
      (f.allows_all = true ∨
        (event_type root ≠ [] ∧ f.allows_all_type (event_type root) = true) ∨
        (event_type root ≠ [] ∧ event_status root ≠ [] ∧
          f.has (event_type root) (event_status root) = true))) ∧
    (event_type root ≠ [] → f.allows_all_type (event_type root) = true →
      past_filter (handle_event x d root).stopped = true) := by
  rw [handle_event_stopped x d f root hf hr, is_allowed_verdict]
  constructor
  · simp only [Bool.or_eq_true, Bool.and_eq_true, Bool.not_eq_true', List.isEmpty_eq_false,
      ne_eq]
    tauto
  · intro h1 h2
    simp [h1, h2]

/-- C4 (witness): the filter that denies only "network" lets a container event pass. -/
theorem C4_filter_stage_witness :
    (past_filter (handle_event sample.quiet (sample.object sample.deny_network)
        sample.container_die).stopped = true ↔
      (sample.deny_network.allows_all = true ∨
        (event_type sample.container_die ≠ [] ∧
          sample.deny_network.allows_all_type (event_type sample.container_die) = true) ∨
        (event_type sample.container_die ≠ [] ∧ event_status sample.container_die ≠ [] ∧
          sample.deny_network.has (event_type sample.container_die)
            (event_status sample.container_die) = true))) ∧
    (event_type sample.container_die ≠ [] →
      sample.deny_network.allows_all_type (event_type sample.container_die) = true →
      past_filter (handle_event sample.quiet (sample.object sample.deny_network)
        sample.container_die).stopped = true) :=
  C4_filter_stage sample.quiet (sample.object sample.deny_network) sample.deny_network
    sample.container_die rfl (by decide)

/-- C5: the queries `handle_event` puts to the filter are an initial part of the sequence
global, category, exact; when `allows_all()` answers true nothing is asked after the global
query, and when `allows_all(type)` answers true the exact-match query is not asked. For a
readable event the global query is always the first one. -/
theorem C5_filter_short_circuit (x : renderers) (d : docker) (f : event_filter) (root : Json)
    (hf : d.m_event_filter = some f) :
    (handle_event x d root).queries <+:
      [filter_query.allows_all, filter_query.allows_all_type (event_type root),
       filter_query.has (event_type root) (event_status root)] ∧
    (f.allows_all = true → (handle_event x d root).queries <+: [filter_query.allows_all]) ∧
    (f.allows_all_type (event_type root) = true →
      (handle_event x d root).queries <+:
        [filter_query.allows_all, filter_query.allows_all_type (event_type root)]) ∧
    (root.indexable = true → [filter_query.allows_all] <+: (handle_event x d root).queries) := by
  rw [handle_event_queries x d f root hf, is_allowed_queries]
  refine ⟨?_, ?_, ?_, ?_⟩
  · split_ifs <;> simp [List.prefix_iff_eq_take]
  · intro h
    split_ifs <;> simp_all [List.prefix_iff_eq_take]
  · intro h
    split_ifs <;> simp_all [List.prefix_iff_eq_take]
  · intro h
    split_ifs <;> simp_all [List.prefix_iff_eq_take]

/-- C5 (witness): a filter that allows everything is asked the global query only. -/
theorem C5_filter_short_circuit_witness :
    (handle_event sample.quiet (sample.object sample.allow_everything)
      sample.container_die).queries = [filter_query.allows_all] ∧
    ((handle_event sample.quiet (sample.object sample.allow_everything)
        sample.container_die).queries <+:
      [filter_query.allows_all, filter_query.allows_all_type (event_type sample.container_die),
       filter_query.has (event_type sample.container_die)
         (event_status sample.container_die)] ∧
    (sample.allow_everything.allows_all = true →
      (handle_event sample.quiet (sample.object sample.allow_everything)
        sample.container_die).queries <+: [filter_query.allows_all]) ∧
    (sample.allow_everything.allows_all_type (event_type sample.container_die) = true →
      (handle_event sample.quiet (sample.object sample.allow_everything)
        sample.container_die).queries <+:
        [filter_query.allows_all,
         filter_query.allows_all_type (event_type sample.container_die)]) ∧
    (sample.container_die.indexable = true →
      [filter_query.allows_all] <+: (handle_event sample.quiet
        (sample.object sample.allow_everything) sample.container_die).queries)) :=
  ⟨by decide,
   C5_filter_short_circuit sample.quiet (sample.object sample.allow_everything)
     sample.allow_everything sample.container_die rfl⟩

/-! ## Dropped events -/

/-- C6: when no filter is set, `set_event_json` leaves the object (and so its event queue)
unchanged for every payload, and `handle_event` writes nothing, so no notification, for every
payload. -/
theorem C6_fail_closed (d : docker) (hf : d.m_event_filter = none) :
    (∀ json : Option Json, d.set_event_json json = d ∧
      (d.set_event_json json).m_events = d.m_events) ∧
    (∀ (x : renderers) (root : Json), (handle_event x d root).log = [] ∧
      notifications (handle_event x d root).log = [] ∧
      (handle_event x d root).stopped = exit_point.no_filter) := by
  constructor
  · intro json
    simp [set_event_json, hf]
  · intro x root
    simp [handle_event, hf, notifications]

/-- C6 (witness): the object constructed without a filter. -/
theorem C6_fail_closed_witness :
    (∀ json : Option Json, (docker.init false none).set_event_json json = docker.init false none ∧
      ((docker.init false none).set_event_json json).m_events = (docker.init false none).m_events) ∧
    (∀ (x : renderers) (root : Json), (handle_event x (docker.init false none) root).log = [] ∧
      notifications (handle_event x (docker.init false none) root).log = [] ∧
      (handle_event x (docker.init false none) root).stopped = exit_point.no_filter) :=
  C6_fail_closed (docker.init false none) rfl

/-- C7: for every event that passes the filter and whose action has no entry in the severity
map, `handle_event` returns normally at line 363, having written no notification and exactly
one diagnostic of level error. -/
theorem C7_unknown_action (x : renderers) (d : docker) (root : Json)
    (ha : d.accepts root = true)
    (hs : d.m_severity_map.lookup (event_status root) = none) :
    (handle_event x d root).stopped = exit_point.not_supported ∧
    notifications (handle_event x d root).log = [] ∧
    diagnostics severity.SEV_ERROR (handle_event x d root).log =
      ["Docker EVENT: status not supported: ".toList ++ event_status root] := by
  unfold accepts at ha
  cases hf : d.m_event_filter with
  | none => simp [hf] at ha
  | some f =>
    simp only [hf, Bool.and_eq_true] at ha
    simp [handle_event, hf, ha.1, ha.2, hs, notifications, diagnostics]

/-- C7 (witness, scenario C): the action "frobnicate". -/
theorem C7_unknown_action_witness :
    (diagnostics severity.SEV_ERROR (handle_event sample.quiet
      (sample.object sample.allow_everything) sample.frobnicate).log).length = 1 ∧
    ((handle_event sample.quiet (sample.object sample.allow_everything)
        sample.frobnicate).stopped = exit_point.not_supported ∧
      notifications (handle_event sample.quiet (sample.object sample.allow_everything)
        sample.frobnicate).log = [] ∧
      diagnostics severity.SEV_ERROR (handle_event sample.quiet
        (sample.object sample.allow_everything) sample.frobnicate).log =
        ["Docker EVENT: status not supported: ".toList ++ event_status sample.frobnicate]) :=
  ⟨by decide,
   C7_unknown_action sample.quiet (sample.object sample.allow_everything) sample.frobnicate
     (by decide) (by decide)⟩

/-- C8: for every event the filter rejects, `handle_event` returns at line 369 having written
three entries: the debug diagnostic of line 234, the report of the rejection at level debug
(line 367), naming the category and the action, and the dump of the payload at level trace. So
there is no notification and no diagnostic of level error, and every entry is a diagnostic of
level debug or trace; and the outcome is the same whatever the severity map holds, so the map is
not consulted. -/
theorem C8_filtered_out (x : renderers) (d : docker) (root : Json)
    (hr : d.rejects root = true) :
    (handle_event x d root).stopped = exit_point.not_permitted ∧
    notifications (handle_event x d root).log = [] ∧
    diagnostics severity.SEV_ERROR (handle_event x d root).log = [] ∧
    (∀ e ∈ (handle_event x d root).log, ∃ msg,
      e = log_entry.log msg severity.SEV_DEBUG ∨ e = log_entry.log msg severity.SEV_TRACE) ∧
    (∀ table : List (std_string × event_severity),
      handle_event x { d with m_severity_map := table } root = handle_event x d root) ∧
    (handle_event x d root).log =
      [log_entry.log ("Docker EVENT: type=".toList ++ event_type root ++ ", status=".toList ++
          event_status root) severity.SEV_DEBUG,
       log_entry.log ("Docker EVENT: status not permitted by filter: ".toList ++
          event_type root ++ [':'] ++ event_status root) severity.SEV_DEBUG,
       log_entry.log (x.write root) severity.SEV_TRACE] ∧
    diagnostics severity.SEV_DEBUG (handle_event x d root).log =
      ["Docker EVENT: type=".toList ++ event_type root ++ ", status=".toList ++
          event_status root,
       "Docker EVENT: status not permitted by filter: ".toList ++ event_type root ++ [':'] ++
          event_status root] := by
  unfold rejects at hr
  cases hf : d.m_event_filter with
  | none => simp [hf] at hr
  | some f =>
    simp only [hf, Bool.and_eq_true, Bool.not_eq_true'] at hr
    simp [handle_event, hf, hr.1, hr.2, notifications, diagnostics]

/-- C8 (witness, scenario D): the filter denies the category "network" entirely; the action
"create" is in the severity map, and the rejection is reported at level debug. -/
theorem C8_filtered_out_witness :
    ((sample.object sample.deny_network).m_severity_map.lookup
      (event_status sample.network_create) = some event_severity.SEV_EVT_INFORMATION ∧
     diagnostics severity.SEV_DEBUG (handle_event sample.quiet
      (sample.object sample.deny_network) sample.network_create).log =
      ["Docker EVENT: type=network, status=create".toList,
       "Docker EVENT: status not permitted by filter: network:create".toList]) ∧
    ((handle_event sample.quiet (sample.object sample.deny_network)
        sample.network_create).stopped = exit_point.not_permitted ∧
    notifications (handle_event sample.quiet (sample.object sample.deny_network)
      sample.network_create).log = [] ∧
    diagnostics severity.SEV_ERROR (handle_event sample.quiet
      (sample.object sample.deny_network) sample.network_create).log = [] ∧
    (∀ e ∈ (handle_event sample.quiet (sample.object sample.deny_network)
        sample.network_create).log, ∃ msg,
      e = log_entry.log msg severity.SEV_DEBUG ∨ e = log_entry.log msg severity.SEV_TRACE) ∧
    (∀ table : List (std_string × event_severity),
      handle_event sample.quiet
        { sample.object sample.deny_network with m_severity_map := table }
        sample.network_create =
      handle_event sample.quiet (sample.object sample.deny_network) sample.network_create) ∧
    (handle_event sample.quiet (sample.object sample.deny_network) sample.network_create).log =
      [log_entry.log ("Docker EVENT: type=".toList ++ event_type sample.network_create ++
          ", status=".toList ++ event_status sample.network_create) severity.SEV_DEBUG,
       log_entry.log ("Docker EVENT: status not permitted by filter: ".toList ++
          event_type sample.network_create ++ [':'] ++ event_status sample.network_create)
          severity.SEV_DEBUG,
       log_entry.log (sample.quiet.write sample.network_create) severity.SEV_TRACE] ∧
    diagnostics severity.SEV_DEBUG (handle_event sample.quiet
      (sample.object sample.deny_network) sample.network_create).log =
      ["Docker EVENT: type=".toList ++ event_type sample.network_create ++
          ", status=".toList ++ event_status sample.network_create,
       "Docker EVENT: status not permitted by filter: ".toList ++
          event_type sample.network_create ++ [':'] ++ event_status sample.network_create]) :=
  ⟨by decide,
   C8_filtered_out sample.quiet (sample.object sample.deny_network) sample.network_create
     (by decide)⟩

/-! ## Rendering -/

theorem lookup_mem_keys {β : Type} (l : List (std_string × β)) (k : std_string) (v : β)
    (h : l.lookup k = some v) : k ∈ l.map Prod.fst := by
  induction l with
  | nil => simp at h
  | cons p rest ih =>
    cases p with
    | mk a b =>
      rw [List.map_cons]
      by_cases hk : k = a
      · rw [hk]
        exact List.mem_cons_self _ _
      · have hb : (k == a) = false := beq_eq_false_iff_ne.mpr hk
        rw [List.lookup_cons, hb] at h
        exact List.mem_cons_of_mem _ (ih h)

theorem severity_map_keys_labelled :
    ∀ k ∈ docker.severity_map.map Prod.fst,
      k ≠ [] ∧ (docker.name_translation.lookup k).isSome = true := by
  decide

/-- An action with an entry in the constructor's severity map is non-empty and has a label in
the constructor's display-name table. -/
theorem severity_map_entry (status : std_string) (sev : event_severity)
    (h : docker.severity_map.lookup status = some sev) :
    status ≠ [] ∧ ∃ label, docker.name_translation.lookup status = some label := by
  have hk := severity_map_keys_labelled status (lookup_mem_keys _ _ _ h)
  exact ⟨hk.1, Option.isSome_iff_exists.mp hk.2⟩

/-- C9 (claim as stated fails): the event `sample.legacy_die` has no `Type`, so its category is
empty; it is sent under the name "die", the action itself, and not under the capitalised
category, a space and the label "Died". -/
theorem C9_counterexample :
    (notifications (handle_event sample.quiet (sample.object sample.allow_everything)
      sample.legacy_die).log).map (fun n => n.1.name) = ["die".toList] ∧
    capitalize (event_type sample.legacy_die) ++ [' '] ++
      (sample.object sample.allow_everything).translate_name (event_status sample.legacy_die) =
      " Died".toList ∧
    "die".toList ≠ " Died".toList := by
  decide

/-- C9 (amended): on an object with the constructor's tables, every notification sent for an
event with a non-empty category is named by the category with its first character upper-cased,
one space, and the label the display-name table gives the action; for an event with an empty
category the name is the action itself. -/
theorem C9_title (x : renderers) (d : docker) (root : Json) (evt : sinsp_user_event)
    (sev : event_severity)
    (hs : d.m_severity_map = docker.severity_map)
    (hn : d.m_name_translation = docker.name_translation)
    (h : (evt, sev) ∈ notifications (handle_event x d root).log) :
    (event_type root ≠ [] → ∃ label,
      docker.name_translation.lookup (event_status root) = some label ∧
      evt.name = capitalize (event_type root) ++ [' '] ++ label) ∧
    (event_type root = [] → evt.name = event_status root) := by
  obtain ⟨_, _, hl, rfl⟩ := handle_event_notification x d root evt sev h
  rw [hs] at hl
  obtain ⟨hne, label, hlab⟩ := severity_map_entry _ _ hl
  constructor
  · intro ht
    refine ⟨label, hlab, ?_⟩
    simp [rendered, event_title, hne, ht, translate_name, hn, hlab]
  · intro ht
    simp [rendered, event_title, ht]

/-- C9 (witness, scenario A): category "container" and action "die" give "Container Died". -/
theorem C9_title_witness :
    capitalize (event_type sample.container_die) ++ [' '] ++ "Died".toList =
      "Container Died".toList ∧
    ((event_type sample.container_die ≠ [] → ∃ label,
      docker.name_translation.lookup (event_status sample.container_die) = some label ∧
      ((sample.object sample.allow_everything).rendered sample.container_die).name =
        capitalize (event_type sample.container_die) ++ [' '] ++ label) ∧
    (event_type sample.container_die = [] →
      ((sample.object sample.allow_everything).rendered sample.container_die).name =
        event_status sample.container_die)) :=
  ⟨by decide,
   C9_title sample.quiet (sample.object sample.allow_everything) sample.container_die
     ((sample.object sample.allow_everything).rendered sample.container_die)
     event_severity.SEV_EVT_WARNING rfl rfl (by decide)⟩

theorem event_description_eq (status : std_string) (actor : Json)
    (hs : status ≠ []) (h1 : actor.indexable = true)
    (h2 : (event_attrib actor).indexable = true) :
    event_description status actor (event_attrib actor) (event_image (event_attrib actor)) =
      "Event: ".toList ++ status ++
      (if event_image (event_attrib actor) = [] then []
       else "; Image: ".toList ++ event_image (event_attrib actor)) ++
      (if ((event_attrib actor).member "name".toList).isNull = false ∧
          ((event_attrib actor).member "name".toList).isConvertibleTo_stringValue = true
       then "; Name: ".toList ++ ((event_attrib actor).member "name".toList).asString
       else []) := by
  cases actor with
  | null => simp [event_description, event_attrib, event_image, Json.isNull, Json.member, hs]
  | object members =>
    cases hattr : event_attrib (Json.object members) with
    | null => simp [event_description, event_image, Json.isNull, Json.member, Json.isObject, hs]
    | object attrs =>
      unfold event_description
      generalize (Json.object attrs).member "name".toList = name
      generalize event_image (Json.object attrs) = image
      have e1 : (Json.object members).isNull = false := rfl
      have e2 : (Json.object members).isObject = true := rfl
      have e3 : (Json.object attrs).isNull = false := rfl
      have e4 : (Json.object attrs).isObject = true := rfl
      simp only [e1, e2, e3, e4]
      cases name.isNull <;> cases name.isConvertibleTo_stringValue <;>
        by_cases hi : image = [] <;> simp [hs, hi]
    | bool b => simp [hattr, Json.indexable] at h2
    | int i => simp [hattr, Json.indexable] at h2
    | uint n => simp [hattr, Json.indexable] at h2
    | real t => simp [hattr, Json.indexable] at h2
    | string s => simp [hattr, Json.indexable] at h2
    | array items => simp [hattr, Json.indexable] at h2
  | bool b => simp [Json.indexable] at h1
  | int i => simp [Json.indexable] at h1
  | uint n => simp [Json.indexable] at h1
  | real t => simp [Json.indexable] at h1
  | string s => simp [Json.indexable] at h1
  | array items => simp [Json.indexable] at h1

/-- C10 (claim as stated fails): in `sample.empty_attributes` the image attribute and the name
attribute are both present and both hold the empty string; the description gets the name
clause and no image clause, so it is neither the text with both clauses nor the text with
none. -/
theorem C10_counterexample :
    ((event_attrib (event_actor sample.empty_attributes)).member "image".toList).isNull
      = false ∧
    ((event_attrib (event_actor sample.empty_attributes)).member "name".toList).isNull
      = false ∧
    (notifications (handle_event sample.quiet (sample.object sample.allow_everything)
      sample.empty_attributes).log).map (fun n => n.1.description) =
      ["Event: start; Name: ".toList] ∧
    "Event: start; Name: ".toList ≠ "Event: start; Image: ; Name: ".toList ∧
    "Event: start; Name: ".toList ≠ "Event: start".toList := by
  decide

/-- C10 (amended): on an object with the constructor's severity map, the description of every
notification sent is "Event: " followed by the action, then "; Image: " and the image exactly
when the image read from the attributes is a non-empty string, then "; Name: " and the name
exactly when the name attribute is not null and convertible to a string (it may be empty), and
nothing else; when neither attribute is there, in particular when the actor or its attributes
are missing, the description is "Event: " followed by the action. -/
theorem C10_body (x : renderers) (d : docker) (root : Json) (evt : sinsp_user_event)
    (sev : event_severity)
    (hs : d.m_severity_map = docker.severity_map)
    (h : (evt, sev) ∈ notifications (handle_event x d root).log) :
    evt.description =
      "Event: ".toList ++ event_status root ++
      (if event_image (event_attrib (event_actor root)) = [] then []
       else "; Image: ".toList ++ event_image (event_attrib (event_actor root))) ++
      (if ((event_attrib (event_actor root)).member "name".toList).isNull = false ∧
          ((event_attrib (event_actor root)).member "name".toList).isConvertibleTo_stringValue
            = true
       then "; Name: ".toList ++ ((event_attrib (event_actor root)).member "name".toList).asString
       else []) ∧
    (((event_attrib (event_actor root)).member "image".toList).isNull = true →
      ((event_attrib (event_actor root)).member "name".toList).isNull = true →
      evt.description = "Event: ".toList ++ event_status root) := by
  obtain ⟨hw, _, hl, rfl⟩ := handle_event_notification x d root evt sev h
  rw [hs] at hl
  have hne := (severity_map_entry _ _ hl).1
  simp only [well_formed, Bool.and_eq_true] at hw
  have hd := event_description_eq (event_status root) (event_actor root) hne hw.1.2 hw.2
  refine ⟨hd, ?_⟩
  intro hi hn
  have himg : event_image (event_attrib (event_actor root)) = [] := by
    unfold event_image
    simp only []
    split_ifs <;> simp_all [Json.isNull]
  have hd2 : (d.rendered root).description = _ := hd
  have hnn : ¬ (((event_attrib (event_actor root)).member "name".toList).isNull = false ∧
      ((event_attrib (event_actor root)).member "name".toList).isConvertibleTo_stringValue
        = true) := by
    rw [hn]
    simp
  rw [hd2, if_pos himg, if_neg hnn]
  simp

/-- C10 (witness): a container starts with image "busybox" and name "web". -/
theorem C10_body_witness :
    ((sample.object sample.allow_everything).rendered sample.container_start).description =
      "Event: start; Image: busybox; Name: web".toList ∧
    (((sample.object sample.allow_everything).rendered sample.container_start).description =
      "Event: ".toList ++ event_status sample.container_start ++
      (if event_image (event_attrib (event_actor sample.container_start)) = [] then []
       else "; Image: ".toList ++
         event_image (event_attrib (event_actor sample.container_start))) ++
      (if ((event_attrib (event_actor sample.container_start)).member "name".toList).isNull
            = false ∧
          ((event_attrib (event_actor sample.container_start)).member
            "name".toList).isConvertibleTo_stringValue = true
       then "; Name: ".toList ++
         ((event_attrib (event_actor sample.container_start)).member "name".toList).asString
       else []) ∧
    (((event_attrib (event_actor sample.container_start)).member "image".toList).isNull = true →
      ((event_attrib (event_actor sample.container_start)).member "name".toList).isNull = true →
      ((sample.object sample.allow_everything).rendered sample.container_start).description =
        "Event: ".toList ++ event_status sample.container_start)) :=
  ⟨by decide,
   C10_body sample.quiet (sample.object sample.allow_everything) sample.container_start
     ((sample.object sample.allow_everything).rendered sample.container_start)
     event_severity.SEV_EVT_INFORMATION rfl (by decide)⟩

/-! ## Tags and timestamp -/

/-- C11 (claim as stated fails): the notification sent for scenario A carries the single tag
source = "docker"; the entry source = "container-runtime" is not among its tags. -/
theorem C11_counterexample :
    (notifications (handle_event sample.quiet (sample.object sample.allow_everything)
      sample.container_die).log).map (fun n => n.1.tags) =
      [[("source".toList, "docker".toList)]] ∧
    ("source".toList, "container-runtime".toList) ∉
      ([("source".toList, "docker".toList)] : List (std_string × std_string)) := by
  decide

/-- C11 (amended): every notification `handle_event` sends carries a tag mapping that holds
one entry, source = "docker" (lines 344-345): it contains that entry and does not contain
source = "container-runtime". -/
theorem C11_tags (x : renderers) (d : docker) (root : Json) (evt : sinsp_user_event)
    (sev : event_severity)
    (h : (evt, sev) ∈ notifications (handle_event x d root).log) :
    evt.tags = [("source".toList, "docker".toList)] ∧
    ("source".toList, "docker".toList) ∈ evt.tags ∧
    ("source".toList, "container-runtime".toList) ∉ evt.tags := by
  obtain ⟨_, _, _, rfl⟩ := handle_event_notification x d root evt sev h
  refine ⟨rfl, ?_, ?_⟩
  · exact List.mem_singleton.mpr rfl
  · intro hc
    have hc2 := List.mem_singleton.mp hc
    revert hc2
    decide

/-- C11 (witness, scenario B). -/
theorem C11_tags_witness :
    ((sample.object sample.allow_everything).rendered sample.image_untag).tags =
      [("source".toList, "docker".toList)] ∧
    ("source".toList, "docker".toList) ∈
      ((sample.object sample.allow_everything).rendered sample.image_untag).tags ∧
    ("source".toList, "container-runtime".toList) ∉
      ((sample.object sample.allow_everything).rendered sample.image_untag).tags :=
  C11_tags sample.quiet (sample.object sample.allow_everything) sample.image_untag
    ((sample.object sample.allow_everything).rendered sample.image_untag)
    event_severity.SEV_EVT_INFORMATION (by decide)

theorem event_time_unsigned (root : Json) (n : Nat) (hn : n < 2 ^ 64)
    (h : root.member "time".toList = Json.uint n ∨
      root.member "time".toList = Json.int (n : Int)) :
    event_time root = n := by
  have hn2 : n < 18446744073709551616 := by simpa using hn
  unfold event_time
  rcases h with h | h
  · rw [h]
    simp only [Json.isNull, Json.isConvertibleTo_uintValue, Json.asUInt64]
    simp
    omega
  · rw [h]
    simp only [Json.isNull, Json.isConvertibleTo_uintValue, Json.asUInt64]
    simp
    omega

theorem event_time_otherwise (root : Json)
    (h : ¬ ∃ n : Nat, n < 2 ^ 64 ∧ (root.member "time".toList = Json.uint n ∨
      root.member "time".toList = Json.int (n : Int))) :
    event_time root = 2 ^ 64 - 1 := by
  unfold event_time
  generalize root.member "time".toList = t at h
  cases t with
  | uint m =>
    have hm : ¬ m < 2 ^ 64 := fun hlt => h ⟨m, hlt, Or.inl rfl⟩
    have hm2 : ¬ m < 18446744073709551616 := by simpa using hm
    simp only [Json.isNull, Json.isConvertibleTo_uintValue, Json.asUInt64]
    simp
    omega
  | int i =>
    have hi : ¬ (0 ≤ i ∧ i < 18446744073709551616) := by
      rintro ⟨h0, h1⟩
      apply h
      refine ⟨i.toNat, ?_, Or.inr ?_⟩
      · have : i.toNat < 18446744073709551616 := by omega
        simpa using this
      · rw [Int.toNat_of_nonneg h0]
    simp only [Json.isNull, Json.isConvertibleTo_uintValue, Json.asUInt64]
    simp
    intro h0 h1
    exact absurd ⟨h0, h1⟩ hi
  | null => rfl
  | bool b => rfl
  | real text => rfl
  | string str => rfl
  | array items => rfl
  | object members => rfl

/-- C12: the timestamp of every notification sent is the `time` member of the event when that
member is there and is an unsigned integer that fits 64 bits, and 2^64 - 1 (18446744073709551615)
in every other case: a missing or null member, a negative integer, and a value that is not an
integer. -/
theorem C12_timestamp (x : renderers) (d : docker) (root : Json) (evt : sinsp_user_event)
    (sev : event_severity)
    (h : (evt, sev) ∈ notifications (handle_event x d root).log) :
    (∀ n : Nat, n < 2 ^ 64 →
      (root.member "time".toList = Json.uint n ∨
        root.member "time".toList = Json.int (n : Int)) →
      evt.epoch_time_s = n) ∧
    ((¬ ∃ n : Nat, n < 2 ^ 64 ∧ (root.member "time".toList = Json.uint n ∨
        root.member "time".toList = Json.int (n : Int))) →
      evt.epoch_time_s = 2 ^ 64 - 1 ∧ evt.epoch_time_s = 18446744073709551615) ∧
    ((root.member "time".toList).isNull = true → evt.epoch_time_s = 2 ^ 64 - 1) := by
  obtain ⟨_, _, _, rfl⟩ := handle_event_notification x d root evt sev h
  have e : (d.rendered root).epoch_time_s = event_time root := rfl
  rw [e]
  refine ⟨fun n hn hm => event_time_unsigned root n hn hm, ?_, ?_⟩
  · intro hno
    rw [event_time_otherwise root hno]
    exact ⟨rfl, by norm_num⟩
  · intro hnull
    apply event_time_otherwise
    rintro ⟨n, _, hm | hm⟩
    · rw [hm] at hnull
      exact Bool.noConfusion hnull
    · rw [hm] at hnull
      exact Bool.noConfusion hnull

/-- C12 (witness): the event `sample.time_large` carries the time 2^32, and scenario A carries
no time. -/
theorem C12_timestamp_witness :
    (((sample.object sample.allow_everything).rendered sample.time_large).epoch_time_s =
        4294967296 ∧
     ((sample.object sample.allow_everything).rendered sample.container_die).epoch_time_s =
        18446744073709551615) ∧
    ((∀ n : Nat, n < 2 ^ 64 →
      (sample.time_large.member "time".toList = Json.uint n ∨
        sample.time_large.member "time".toList = Json.int (n : Int)) →
      ((sample.object sample.allow_everything).rendered sample.time_large).epoch_time_s = n) ∧
    ((¬ ∃ n : Nat, n < 2 ^ 64 ∧ (sample.time_large.member "time".toList = Json.uint n ∨
        sample.time_large.member "time".toList = Json.int (n : Int))) →
      ((sample.object sample.allow_everything).rendered sample.time_large).epoch_time_s =
        2 ^ 64 - 1 ∧
      ((sample.object sample.allow_everything).rendered sample.time_large).epoch_time_s =
        18446744073709551615) ∧
    ((sample.time_large.member "time".toList).isNull = true →
      ((sample.object sample.allow_everything).rendered sample.time_large).epoch_time_s =
        2 ^ 64 - 1)) :=
  ⟨by decide,
   C12_timestamp sample.quiet (sample.object sample.allow_everything) sample.time_large
     ((sample.object sample.allow_everything).rendered sample.time_large)
     event_severity.SEV_EVT_INFORMATION (by decide)⟩

/-! ## The processing cycle -/

theorem handle_event_queue (x : renderers) (d : docker) (queue : List (Option Json))
    (root : Json) :
    handle_event x { d with m_events := queue } root = handle_event x d root := rfl

theorem handle_events_queue (x : renderers) (d : docker) (queue items : List (Option Json)) :
    handle_events x { d with m_events := queue } items = handle_events x d items := by
  induction items with
  | nil => rfl
  | cons evt rest ih =>
    cases evt with
    | none => simp only [handle_events, ih]
    | some json => simp only [handle_events, ih, handle_event_queue]

theorem foldl_set_event_json (d : docker) (arrived : List (Option Json)) :
    arrived.foldl set_event_json d =
      { d with m_events := d.m_events ++
          (if d.m_event_filter.isSome = true then arrived else []) } := by
  induction arrived generalizing d with
  | nil => simp
  | cons json rest ih =>
    rw [List.foldl_cons, ih]
    by_cases hf : d.m_event_filter.isSome = true
    · simp [set_event_json, hf]
    · simp [set_event_json, hf]

theorem handle_event_returns (x : renderers) (d : docker) (root : Json)
    (hw : well_formed root = true) : threw (handle_event x d root).stopped = false := by
  simp only [well_formed, Bool.and_eq_true] at hw
  obtain ⟨⟨hr, h1⟩, h2⟩ := hw
  unfold handle_event
  cases hf : d.m_event_filter with
  | none => rfl
  | some f =>
    simp only [hr]
    cases hv : (is_allowed f (event_type root) (event_status root)).1
    · simp [threw]
    · cases hs : d.m_severity_map.lookup (event_status root) with
      | none => simp [threw]
      | some sev => simp [handle_supported, h1, h2, threw]

theorem handle_events_append (x : renderers) (d : docker) (pre rest : List (Option Json))
    (hpre : (handle_events x d pre).threw = false) :
    (handle_events x d (pre ++ rest)).log =
      (handle_events x d pre).log ++ (handle_events x d rest).log ∧
    (handle_events x d (pre ++ rest)).handled =
      (handle_events x d pre).handled ++ (handle_events x d rest).handled ∧
    (handle_events x d (pre ++ rest)).threw = (handle_events x d rest).threw := by
  induction pre with
  | nil => simp [handle_events]
  | cons evt more ih =>
    cases evt with
    | none =>
      simp only [handle_events] at hpre
      simp [handle_events, ih hpre]
    | some json =>
      by_cases hn : json.isNull = true
      · simp only [handle_events, hn] at hpre
        simp at hpre
        simp [handle_events, hn, ih hpre]
      · by_cases ht : threw (handle_event x d json).stopped = true
        · simp [handle_events, hn, ht] at hpre
        · simp only [handle_events, hn, ht] at hpre
          simp at hpre
          simp [handle_events, hn, ht, ih hpre]

theorem handle_events_well_formed (x : renderers) (d : docker) (queue : List Json)
    (hw : ∀ root ∈ queue, root.isNull = false ∧ well_formed root = true) :
    (handle_events x d (queue.map some)).log =
      (queue.map (fun root => (handle_event x d root).log)).flatten ∧
    (handle_events x d (queue.map some)).handled = queue ∧
    (handle_events x d (queue.map some)).threw = false := by
  induction queue with
  | nil => simp [handle_events]
  | cons root rest ih =>
    have h0 := hw root (List.mem_cons_self _ _)
    have hrest := ih (fun r hr => hw r (List.mem_cons_of_mem _ hr))
    have ht := handle_event_returns x d root h0.2
    simp [handle_events, h0.1, ht, hrest]

theorem collect_data_state (d : docker) (arrived queue : List (Option Json))
    (hq : (arrived.foldl set_event_json d).m_events = queue) :
    arrived.foldl set_event_json d = { d with m_events := queue } := by
  rw [foldl_set_event_json] at hq ⊢
  simp only at hq
  rw [hq]

theorem collect_data_log (x : renderers) (d : docker) (n : Nat) (arrived : List (Option Json))
    (queue : List (Option Json)) (hn : n ≠ 0)
    (hq : (arrived.foldl set_event_json d).m_events = queue) :
    (collect_data x d n arrived).log = (handle_events x d queue).log ∧
    (collect_data x d n arrived).handled = (handle_events x d queue).handled := by
  have hd := collect_data_state d arrived queue hq
  unfold collect_data
  simp only [hn, ne_eq, not_false_eq_true, if_true, hd, handle_events_queue]
  cases queue with
  | nil => simp [handle_events]
  | cons evt rest =>
    cases (handle_events x d (evt :: rest)).threw <;> simp

theorem collect_data_done (x : renderers) (d : docker) (n : Nat) (arrived : List (Option Json))
    (queue : List (Option Json)) (hn : n ≠ 0)
    (hq : (arrived.foldl set_event_json d).m_events = queue)
    (ht : (handle_events x d queue).threw = false) :
    (collect_data x d n arrived).state.m_events = [] ∧
    (collect_data x d n arrived).threw = false := by
  have hd := collect_data_state d arrived queue hq
  unfold collect_data
  simp only [hn, ne_eq, not_false_eq_true, if_true, hd, handle_events_queue]
  cases queue with
  | nil => simp
  | cons evt rest => simp [ht]

/-- C13: in a cycle of `collect_data` with at least one subscription, over a queue of non-null,
well-formed events, what is written is the concatenation, in queue order, of what
`handle_event` writes for each item alone; each item is passed to `handle_event` once, in queue
order; and the queue is empty afterwards. With an empty queue nothing is written and the queue
stays empty. -/
theorem C13_cycle (x : renderers) (d : docker) (n : Nat) (arrived : List (Option Json))
    (queue : List Json) (hn : n ≠ 0)
    (hq : (arrived.foldl set_event_json d).m_events = queue.map some)
    (hw : ∀ root ∈ queue, root.isNull = false ∧ well_formed root = true) :
    (collect_data x d n arrived).log =
      (queue.map (fun root => (handle_event x d root).log)).flatten ∧
    (collect_data x d n arrived).handled = queue ∧
    (collect_data x d n arrived).state.m_events = [] ∧
    (collect_data x d n arrived).threw = false ∧
    (queue = [] → (collect_data x d n arrived).log = []) := by
  obtain ⟨h1, h2, h3⟩ := handle_events_well_formed x d queue hw
  obtain ⟨c1, c2⟩ := collect_data_log x d n arrived (queue.map some) hn hq
  obtain ⟨c3, c4⟩ := collect_data_done x d n arrived (queue.map some) hn hq h3
  refine ⟨c1.trans h1, c2.trans h2, c3, c4, ?_⟩
  intro he
  rw [c1.trans h1, he]
  rfl

/-- C13 (witness): scenario A, then scenario B, arrive in one cycle. -/
theorem C13_cycle_witness :
    notifications (collect_data sample.quiet (sample.object sample.allow_everything) 1
      [some sample.container_die, some sample.image_untag]).log =
      [((sample.object sample.allow_everything).rendered sample.container_die,
          event_severity.SEV_EVT_WARNING),
       ((sample.object sample.allow_everything).rendered sample.image_untag,
          event_severity.SEV_EVT_INFORMATION)] ∧
    ((collect_data sample.quiet (sample.object sample.allow_everything) 1
      [some sample.container_die, some sample.image_untag]).log =
      ([sample.container_die, sample.image_untag].map (fun root =>
        (handle_event sample.quiet (sample.object sample.allow_everything) root).log)).flatten ∧
    (collect_data sample.quiet (sample.object sample.allow_everything) 1
      [some sample.container_die, some sample.image_untag]).handled =
      [sample.container_die, sample.image_untag] ∧
    (collect_data sample.quiet (sample.object sample.allow_everything) 1
      [some sample.container_die, some sample.image_untag]).state.m_events = [] ∧
    (collect_data sample.quiet (sample.object sample.allow_everything) 1
      [some sample.container_die, some sample.image_untag]).threw = false ∧
    ([sample.container_die, sample.image_untag] = [] →
      (collect_data sample.quiet (sample.object sample.allow_everything) 1
        [some sample.container_die, some sample.image_untag]).log = [])) :=
  ⟨by decide,
   C13_cycle sample.quiet (sample.object sample.allow_everything) 1
     [some sample.container_die, some sample.image_untag]
     [sample.container_die, sample.image_untag] (by decide) rfl (by decide)⟩

/-- C14: in a cycle of `collect_data` with at least one subscription, a queue item that is a
null pointer or holds the null JSON value, reached by the loop, adds exactly one entry, a
diagnostic of level error, so no notification; it is not passed to `handle_event`; and the
items after it are processed as they are without it. -/
theorem C14_null_item (x : renderers) (d : docker) (n : Nat) (arrived : List (Option Json))
    (pre post : List (Option Json)) (item : Option Json) (hn : n ≠ 0)
    (hq : (arrived.foldl set_event_json d).m_events = pre ++ item :: post)
    (hpre : (handle_events x d pre).threw = false)
    (hitem : item = none ∨ item = some Json.null) :
    (collect_data x d n arrived).log =
      (handle_events x d pre).log ++ event_error item :: (handle_events x d post).log ∧
    (collect_data x d n arrived).handled =
      (handle_events x d pre).handled ++ (handle_events x d post).handled ∧
    (∃ msg, event_error item = log_entry.log msg severity.SEV_ERROR) ∧
    notifications [event_error item] = [] ∧
    (diagnostics severity.SEV_ERROR [event_error item]).length = 1 := by
  have hcons : handle_events x d (item :: post) =
      ⟨event_error item :: (handle_events x d post).log, (handle_events x d post).handled,
       (handle_events x d post).threw⟩ := by
    rcases hitem with rfl | rfl
    · simp [handle_events]
    · simp [handle_events, Json.isNull]
  obtain ⟨a1, a2, a3⟩ := handle_events_append x d pre (item :: post) hpre
  rw [hcons] at a1 a2 a3
  simp only at a1 a2 a3
  obtain ⟨c1, c2⟩ := collect_data_log x d n arrived (pre ++ item :: post) hn hq
  refine ⟨c1.trans a1, c2.trans a2, ⟨_, rfl⟩, rfl, ?_⟩
  simp [event_error, diagnostics]

/-- C14 (witness): a null pointer and a null JSON value arrive between scenario A and scenario
B; with the same filter `handle_event` would have written something else for the null JSON
value. -/
theorem C14_null_item_witness :
    (diagnostics severity.SEV_ERROR (collect_data sample.quiet
      (sample.object sample.allow_everything) 1
      [some sample.container_die, none, some Json.null, some sample.image_untag]).log =
      ["Docker event error: event is null.".toList, "Docker event error: JSON is null.".toList] ∧
     diagnostics severity.SEV_ERROR (handle_event sample.quiet
      (sample.object sample.allow_everything) Json.null).log =
      ["Docker EVENT: status not supported: ".toList]) ∧
    ((collect_data sample.quiet (sample.object sample.allow_everything) 1
      [some sample.container_die, none, some Json.null, some sample.image_untag]).log =
      (handle_events sample.quiet (sample.object sample.allow_everything)
        [some sample.container_die, none]).log ++
      event_error (some Json.null) ::
        (handle_events sample.quiet (sample.object sample.allow_everything)
          [some sample.image_untag]).log ∧
    (collect_data sample.quiet (sample.object sample.allow_everything) 1
      [some sample.container_die, none, some Json.null, some sample.image_untag]).handled =
      (handle_events sample.quiet (sample.object sample.allow_everything)
        [some sample.container_die, none]).handled ++
      (handle_events sample.quiet (sample.object sample.allow_everything)
        [some sample.image_untag]).handled ∧
    (∃ msg, event_error (some Json.null) = log_entry.log msg severity.SEV_ERROR) ∧
    notifications [event_error (some Json.null)] = [] ∧
    (diagnostics severity.SEV_ERROR [event_error (some Json.null)]).length = 1) :=
  ⟨by decide,
   C14_null_item sample.quiet (sample.object sample.allow_everything) 1
     [some sample.container_die, none, some Json.null, some sample.image_untag]
     [some sample.container_die, none] [some sample.image_untag] (some Json.null)
     (by decide) rfl (by decide) (Or.inr rfl)⟩

/-! ## Scope resolution, continued -/

/-- The diagnostic of line 317 is never written: its branch lies inside the test
`id.length()` of line 291 and behind the test `!id.empty()` of line 311. -/
theorem event_scope_writes_nothing (d : docker) (id image event_name : std_string) :
    (event_scope d id image event_name).2 = [] := by
  unfold event_scope
  by_cases hid : id = []
  · simp [hid]
  · simp only []
    have hl : id.length ≠ 0 := by simpa using hid
    have he : (!id.isEmpty) = true := by simpa using hid
    rw [if_pos hl]
    split_ifs <;> rfl

/-- C15 (the code at the failing input): `sample.pull_unnamed` is an accepted image event with
an action of the severity map, an empty identifier and no image attribute. `handle_event` sends
it with the empty scope, and writes no diagnostic of level error. -/
theorem C15_no_error_reported :
    (sample.object sample.allow_everything).accepts sample.pull_unnamed = true ∧
    (sample.object sample.allow_everything).is_image_event
      (event_status sample.pull_unnamed) = true ∧
    event_id sample.pull_unnamed = [] ∧
    event_image (event_attrib (event_actor sample.pull_unnamed)) = [] ∧
    notifications (handle_event sample.quiet (sample.object sample.allow_everything)
      sample.pull_unnamed).log =
      [(⟨2 ^ 64 - 1, "Image Pulled".toList, "Event: pull".toList, [],
         [("source".toList, "docker".toList)]⟩, event_severity.SEV_EVT_INFORMATION)] ∧
    diagnostics severity.SEV_ERROR (handle_event sample.quiet
      (sample.object sample.allow_everything) sample.pull_unnamed).log = [] := by
  decide

/-- C16 (claim as stated fails): the identifier "sha256:" starts with "sha256:", and the
identifier `handle_event` uses for it is "sha256:" itself, not the empty string: the scope of
the notification is "container.id=sha256:". -/
theorem C16_counterexample :
    get_json_string sample.marker_only "id".toList = "sha256:".toList ∧
    event_id sample.marker_only = "sha256:".toList ∧
    event_id sample.marker_only ≠ [] ∧
    (notifications (handle_event sample.quiet (sample.object sample.allow_everything)
      sample.marker_only).log).map (fun n => n.1.scope) = ["container.id=sha256:".toList] := by
  decide

/-- C16 (amended): for an identifier made of "sha256:" and at least one further character,
the identifier `handle_event` uses is what follows the 7 characters of the marker; the
identifier "sha256:" itself, and every identifier that does not start with "sha256:", is used
unchanged. The scope of every notification sent is resolved from that identifier. -/
theorem C16_identifier (root : Json) :
    (∀ rest : std_string, rest ≠ [] →
      get_json_string root "id".toList = "sha256:".toList ++ rest → event_id root = rest) ∧
    (get_json_string root "id".toList = "sha256:".toList → event_id root = "sha256:".toList) ∧
    (¬ "sha256:".toList <+: get_json_string root "id".toList →
      event_id root = get_json_string root "id".toList) ∧
    (∀ (x : renderers) (d : docker) (evt : sinsp_user_event) (sev : event_severity),
      (evt, sev) ∈ notifications (handle_event x d root).log →
      evt.scope = (event_scope d (event_id root)
        (event_image (event_attrib (event_actor root))) (event_status root)).1) := by
  refine ⟨?_, ?_, ?_, ?_⟩
  · intro rest hne hraw
    unfold event_id
    simp only []
    rw [hraw]
    have hlen : ("sha256:".toList ++ rest).length > 7 := by
      have : rest.length ≠ 0 := by simpa using hne
      simp only [List.length_append]
      have h7 : "sha256:".toList.length = 7 := by decide
      omega
    have htake : ("sha256:".toList ++ rest).take 7 = "sha256:".toList :=
      List.take_left' (by decide)
    have hdrop : ("sha256:".toList ++ rest).drop 7 = rest :=
      List.drop_left' (by decide)
    rw [if_pos ⟨hlen, htake⟩, hdrop]
  · intro hraw
    unfold event_id
    simp only []
    rw [hraw]
    decide
  · intro hnp
    unfold event_id
    simp only []
    rw [if_neg]
    intro hh
    apply hnp
    rw [← hh.2]
    exact List.take_prefix _ _
  · intro x d evt sev h
    obtain ⟨_, _, _, rfl⟩ := handle_event_notification x d root evt sev h
    rfl

theorem scope_image_event (d : docker) (id image event_name : std_string)
    (hid : id ≠ []) (h : image ≠ id) (hi : d.is_image_event event_name = true)
    (hu : event_name ≠ "untag".toList) (hd : event_name ≠ "delete".toList) :
    (event_scope d id image event_name).1 =
      d.host_clause ++ "container.image=".toList ++ (if image = [] then id else image) := by
  have hud : ¬ (event_name = "untag".toList ∨ event_name = "delete".toList) := by
    rintro (hc | hc)
    · exact hu hc
    · exact hd hc
  simp only [String.toList] at hud
  by_cases hm : d.m_machine_id = [] <;> by_cases him : image = [] <;>
    simp [event_scope, host_clause, hm, hid, h, hi, hud, him]

/-- C17 (claim as stated fails): `sample.tag_empty_image` is an accepted image event with the
action "tag" and a non-empty identifier; its image attribute is present and holds the empty
string, so it differs from the identifier. The scope is "container.image=" followed by the
identifier, not "container.image=" followed by the image. -/
theorem C17_counterexample :
    (sample.object sample.allow_everything).accepts sample.tag_empty_image = true ∧
    event_status sample.tag_empty_image = "tag".toList ∧
    (sample.object sample.allow_everything).is_image_event
      (event_status sample.tag_empty_image) = true ∧
    ((event_attrib (event_actor sample.tag_empty_image)).member "image".toList).isNull
      = false ∧
    event_image (event_attrib (event_actor sample.tag_empty_image)) = [] ∧
    event_id sample.tag_empty_image = "0123456789abcdef".toList ∧
    event_id sample.tag_empty_image ≠
      event_image (event_attrib (event_actor sample.tag_empty_image)) ∧
    (notifications (handle_event sample.quiet (sample.object sample.allow_everything)
      sample.tag_empty_image).log).map (fun n => n.1.scope) =
      ["container.image=0123456789abcdef".toList] ∧
    "container.image=0123456789abcdef".toList ≠ "container.image=".toList ++
      event_image (event_attrib (event_actor sample.tag_empty_image)) := by
  decide

/-- C17 (amended): on an object with the constructor's tables, for every accepted, well-formed
event whose action is "import", "pull", "push" or "tag", with a non-empty identifier (as lines
252-256 normalise it) that differs from the image attribute, `handle_event` sends one
notification; its scope is the host clause (if any) followed by "container.image=" and the
image when the image attribute holds a non-empty string, and otherwise, when the attribute is
missing or empty, followed by "container.image=" and the whole identifier. -/
theorem C17_scope_image_event (x : renderers) (d : docker) (root : Json)
    (hs : d.m_severity_map = docker.severity_map)
    (hi : d.m_image_events = docker.image_events)
    (hw : well_formed root = true) (ha : d.accepts root = true)
    (hact : event_status root = "import".toList ∨ event_status root = "pull".toList ∨
      event_status root = "push".toList ∨ event_status root = "tag".toList)
    (hid : event_id root ≠ [])
    (hne : event_id root ≠ event_image (event_attrib (event_actor root))) :
    ∃ evt, notifications (handle_event x d root).log =
        [(evt, event_severity.SEV_EVT_INFORMATION)] ∧
      (event_image (event_attrib (event_actor root)) ≠ [] →
        evt.scope = d.host_clause ++ "container.image=".toList ++
          event_image (event_attrib (event_actor root))) ∧
      (event_image (event_attrib (event_actor root)) = [] →
        evt.scope = d.host_clause ++ "container.image=".toList ++ event_id root) := by
  have hfacts : d.m_severity_map.lookup (event_status root) =
        some event_severity.SEV_EVT_INFORMATION ∧
      d.is_image_event (event_status root) = true ∧
      event_status root ≠ "untag".toList ∧ event_status root ≠ "delete".toList := by
    unfold is_image_event
    rw [hs, hi]
    rcases hact with h | h | h | h <;> rw [h] <;> decide
  obtain ⟨hl, him, hu, hd⟩ := hfacts
  have hsc := scope_image_event d (event_id root)
    (event_image (event_attrib (event_actor root))) (event_status root) hid (Ne.symm hne)
    him hu hd
  refine ⟨d.rendered root, (handle_event_sent x d root _ hw ha hl).2, ?_, ?_⟩
  · intro hp
    have e : (d.rendered root).scope = _ := hsc
    rw [e, if_neg hp]
  · intro hp
    have e : (d.rendered root).scope = _ := hsc
    rw [e, if_pos hp]

/-- C17 (witness): an image is pulled and the event carries no image attribute: the scope is
"container.image=" and the whole identifier, which has more than 12 characters; an image is
tagged and the image attribute is "busybox:latest": the scope is "container.image=" and the
image. -/
theorem C17_scope_image_event_witness :
    ((sample.object sample.allow_everything).host_clause ++ "container.image=".toList ++
        event_id sample.pull_by_id =
      "container.image=registry.example.com/busybox:latest".toList ∧
     (sample.object sample.allow_everything).host_clause ++ "container.image=".toList ++
        event_image (event_attrib (event_actor sample.tag_named)) =
      "container.image=busybox:latest".toList ∧
     event_image (event_attrib (event_actor sample.pull_by_id)) = [] ∧
     event_image (event_attrib (event_actor sample.tag_named)) ≠ []) ∧
    (∃ evt, notifications (handle_event sample.quiet (sample.object sample.allow_everything)
        sample.pull_by_id).log = [(evt, event_severity.SEV_EVT_INFORMATION)] ∧
      (event_image (event_attrib (event_actor sample.pull_by_id)) ≠ [] →
        evt.scope = (sample.object sample.allow_everything).host_clause ++
          "container.image=".toList ++
          event_image (event_attrib (event_actor sample.pull_by_id))) ∧
      (event_image (event_attrib (event_actor sample.pull_by_id)) = [] →
        evt.scope = (sample.object sample.allow_everything).host_clause ++
          "container.image=".toList ++ event_id sample.pull_by_id)) ∧
    (∃ evt, notifications (handle_event sample.quiet (sample.object sample.allow_everything)
        sample.tag_named).log = [(evt, event_severity.SEV_EVT_INFORMATION)] ∧
      (event_image (event_attrib (event_actor sample.tag_named)) ≠ [] →
        evt.scope = (sample.object sample.allow_everything).host_clause ++
          "container.image=".toList ++
          event_image (event_attrib (event_actor sample.tag_named))) ∧
      (event_image (event_attrib (event_actor sample.tag_named)) = [] →
        evt.scope = (sample.object sample.allow_everything).host_clause ++
          "container.image=".toList ++ event_id sample.tag_named)) :=
  ⟨by decide,
   C17_scope_image_event sample.quiet (sample.object sample.allow_everything)
     sample.pull_by_id rfl rfl (by decide) (by decide) (Or.inr (Or.inl (by decide)))
     (by decide) (by decide),
   C17_scope_image_event sample.quiet (sample.object sample.allow_everything)
     sample.tag_named rfl rfl (by decide) (by decide) (Or.inr (Or.inr (Or.inr (by decide))))
     (by decide) (by decide)⟩

theorem event_scope_host (d : docker) (id image event_name : std_string) :
    (event_scope d id image event_name).1 =
      if id = [] then
        (if d.m_machine_id = [] then [] else "host.mac=".toList ++ d.m_machine_id)
      else d.host_clause ++
        (event_scope { d with m_machine_id := [] } id image event_name).1 := by
  have hie : ∀ name, is_image_event { d with m_machine_id := [] } name =
      d.is_image_event name := fun _ => rfl
  by_cases hid : id = []
  · by_cases hm : d.m_machine_id = [] <;> simp [event_scope, hid, hm]
  · rw [if_neg hid]
    unfold event_scope
    simp only [hie]
    by_cases hm : d.m_machine_id = []
    · simp [host_clause, hm, hid]
    · simp only [host_clause, hm]
      simp [hid, hm]
      split_ifs <;> simp

/-- C18: for every notification `handle_event` sends, the same event on the same object
without a machine identifier is sent too, with a scope E; under a non-empty machine identifier
M the scope is "host.mac=M and E" when the identifier (as lines 252-256 normalise it) is not
empty and "host.mac=M" when it is empty; without a machine identifier and with an empty
identifier the scope is the empty string. -/
theorem C18_host_clause (x : renderers) (d : docker) (root : Json) (evt : sinsp_user_event)
    (sev : event_severity)
    (h : (evt, sev) ∈ notifications (handle_event x d root).log) :
    ∃ bare, notifications (handle_event x { d with m_machine_id := [] } root).log =
        [(bare, sev)] ∧
      (d.m_machine_id ≠ [] → event_id root ≠ [] →
        evt.scope = "host.mac=".toList ++ d.m_machine_id ++ " and ".toList ++ bare.scope) ∧
      (d.m_machine_id ≠ [] → event_id root = [] →
        evt.scope = "host.mac=".toList ++ d.m_machine_id) ∧
      (d.m_machine_id = [] → event_id root = [] → evt.scope = []) := by
  obtain ⟨hw, ha, hl, rfl⟩ := handle_event_notification x d root evt sev h
  have hsent := (handle_event_sent x { d with m_machine_id := [] } root sev hw ha hl).2
  have hsc : (d.rendered root).scope = _ :=
    event_scope_host d (event_id root) (event_image (event_attrib (event_actor root)))
      (event_status root)
  refine ⟨_, hsent, ?_, ?_, ?_⟩
  · intro hm hid
    rw [hsc, if_neg hid]
    simp [host_clause, hm, rendered]
  · intro hm hid
    rw [hsc, if_pos hid, if_neg hm]
  · intro hm hid
    rw [hsc, if_pos hid, if_pos hm]

/-- C18 (witness): scenario A on a host with the machine identifier "00:11:22:33:44:55". -/
theorem C18_host_clause_witness :
    ((sample.object_on_host sample.allow_everything).rendered sample.container_die).scope =
      "host.mac=00:11:22:33:44:55 and container.id=abcdef012345".toList ∧
    ∃ bare, notifications (handle_event sample.quiet
        { sample.object_on_host sample.allow_everything with m_machine_id := [] }
        sample.container_die).log = [(bare, event_severity.SEV_EVT_WARNING)] ∧
      ((sample.object_on_host sample.allow_everything).m_machine_id ≠ [] →
        event_id sample.container_die ≠ [] →
        ((sample.object_on_host sample.allow_everything).rendered sample.container_die).scope =
          "host.mac=".toList ++ (sample.object_on_host sample.allow_everything).m_machine_id ++
            " and ".toList ++ bare.scope) ∧
      ((sample.object_on_host sample.allow_everything).m_machine_id ≠ [] →
        event_id sample.container_die = [] →
        ((sample.object_on_host sample.allow_everything).rendered sample.container_die).scope =
          "host.mac=".toList ++ (sample.object_on_host sample.allow_everything).m_machine_id) ∧
      ((sample.object_on_host sample.allow_everything).m_machine_id = [] →
        event_id sample.container_die = [] →
        ((sample.object_on_host sample.allow_everything).rendered sample.container_die).scope =
          []) :=
  ⟨by decide,
   C18_host_clause sample.quiet (sample.object_on_host sample.allow_everything)
     sample.container_die
     ((sample.object_on_host sample.allow_everything).rendered sample.container_die)
     event_severity.SEV_EVT_WARNING (by decide)⟩

/-! ## The tables -/

/-- C20: the severity map and the display-name table have the same keys, which are the 30
distinct action names of the four category sets taken together: every action of a category set
has a severity and a label, and an action with a severity is in a category set. The image set
shares no action with the container, volume and network sets. The empty string is not a key, so
on an object with the constructor's severity map an event with an empty action is never
sent. -/
theorem C20_tables :
    docker.severity_map.map Prod.fst = docker.name_translation.map Prod.fst ∧
    (∀ k ∈ docker.container_events ++ docker.image_events ++ docker.volume_events ++
        docker.network_events,
      (docker.severity_map.lookup k).isSome = true ∧
      (docker.name_translation.lookup k).isSome = true) ∧
    (∀ (k : std_string) (sev : event_severity), docker.severity_map.lookup k = some sev →
      k ∈ docker.container_events ++ docker.image_events ++ docker.volume_events ++
        docker.network_events) ∧
    (docker.severity_map.map Prod.fst).Nodup ∧
    (docker.severity_map.map Prod.fst).length = 30 ∧
    (∀ k ∈ docker.image_events, k ∉ docker.container_events ∧ k ∉ docker.volume_events ∧
      k ∉ docker.network_events) ∧
    docker.severity_map.lookup [] = none ∧
    docker.name_translation.lookup [] = none ∧
    (∀ (x : renderers) (d : docker) (root : Json), d.m_severity_map = docker.severity_map →
      event_status root = [] → notifications (handle_event x d root).log = []) := by
  refine ⟨by decide, by decide, ?_, by decide, by decide, by decide, by decide, by decide, ?_⟩
  · intro k sev h
    have hk := lookup_mem_keys _ _ _ h
    have hall : ∀ k ∈ docker.severity_map.map Prod.fst,
        k ∈ docker.container_events ++ docker.image_events ++ docker.volume_events ++
          docker.network_events := by decide
    exact hall k hk
  · intro x d root hs he
    rw [List.eq_nil_iff_forall_not_mem]
    rintro ⟨evt, sev⟩ hmem
    obtain ⟨_, _, hl, _⟩ := handle_event_notification x d root evt sev hmem
    rw [hs] at hl
    exact (severity_map_entry _ _ hl).1 he

/-! ## The action -/

/-- Two payloads that `handle_event` reads alike are handled alike, up to the dumps of the raw
payload in the diagnostics of level debug and trace. -/
theorem handle_event_congr (x : renderers) (d : docker) (r1 r2 : Json)
    (hi : r1.indexable = r2.indexable) (ht : event_type r1 = event_type r2)
    (hs : event_status r1 = event_status r2) (hid : event_id r1 = event_id r2)
    (htm : event_time r1 = event_time r2) (hac : event_actor r1 = event_actor r2) :
    (handle_event x d r1).stopped = (handle_event x d r2).stopped ∧
    (handle_event x d r1).queries = (handle_event x d r2).queries ∧
    notifications (handle_event x d r1).log = notifications (handle_event x d r2).log ∧
    diagnostics severity.SEV_ERROR (handle_event x d r1).log =
      diagnostics severity.SEV_ERROR (handle_event x d r2).log := by
  unfold handle_event handle_supported
  rw [hi, ht, hs, hid, htm, hac]
  cases d.m_event_filter with
  | none => simp
  | some f =>
    simp only []
    cases r2.indexable
    · simp
    · cases (is_allowed f (event_type r2) (event_status r2)).1
      · simp [notifications, diagnostics, notifications_append, diagnostics_append]
      · cases d.m_severity_map.lookup (event_status r2) with
        | none => simp [notifications, diagnostics, notifications_append, diagnostics_append]
        | some sev =>
          cases (event_actor r2).indexable
          · simp [notifications, diagnostics, notifications_append, diagnostics_append]
            split_ifs <;> simp [notifications, diagnostics]
          · cases (event_attrib (event_actor r2)).indexable
            · simp [notifications, diagnostics, notifications_append, diagnostics_append]
              split_ifs <;> simp [notifications, diagnostics]
            · simp [notifications, diagnostics, notifications_append, diagnostics_append]
              split_ifs <;> simp [notifications, diagnostics]

/-- C19: the action of an event is the string value of its `Action` member when that is not
empty, and of its `status` member otherwise; it is that action that a notification was
accepted, classified and rendered with. A payload that carries a value in `status` only, and
the payload that carries the same value in `Action` only and is otherwise the same, have the
same action; `handle_event` stops at the same exit point for both, puts the same queries to the
filter, and writes the same notifications and the same diagnostics of level error. -/
theorem C19_action (x : renderers) (d : docker) (with_action with_status : Json)
    (h1 : with_action.indexable = true) (h2 : with_status.indexable = true)
    (hval : with_action.member "Action".toList = with_status.member "status".toList)
    (hna : (with_status.member "Action".toList).isNull = true)
    (hns : (with_action.member "status".toList).isNull = true)
    (hrest : ∀ key : std_string, key ≠ "Action".toList → key ≠ "status".toList →
      with_action.member key = with_status.member key) :
    (∀ root : Json, event_status root =
      if get_json_string root "Action".toList = [] then get_json_string root "status".toList
      else get_json_string root "Action".toList) ∧
    (∀ (root : Json) (evt : sinsp_user_event) (sev : event_severity),
      (evt, sev) ∈ notifications (handle_event x d root).log →
      d.accepts root = true ∧ d.m_severity_map.lookup (event_status root) = some sev ∧
      evt = d.rendered root) ∧
    event_status with_status = get_json_string with_status "status".toList ∧
    event_status with_action = event_status with_status ∧
    (handle_event x d with_action).stopped = (handle_event x d with_status).stopped ∧
    (handle_event x d with_action).queries = (handle_event x d with_status).queries ∧
    notifications (handle_event x d with_action).log =
      notifications (handle_event x d with_status).log ∧
    diagnostics severity.SEV_ERROR (handle_event x d with_action).log =
      diagnostics severity.SEV_ERROR (handle_event x d with_status).log := by
  have gA : get_json_string with_status "Action".toList = [] := by
    unfold get_json_string
    simp only [hna]
    rfl
  have gS : get_json_string with_action "status".toList = [] := by
    unfold get_json_string
    simp only [hns]
    rfl
  have gV : get_json_string with_action "Action".toList =
      get_json_string with_status "status".toList := by
    unfold get_json_string
    rw [hval]
  have es : event_status with_status = get_json_string with_status "status".toList := by
    unfold event_status
    simp only [gA]
    rfl
  have ea : event_status with_action = get_json_string with_status "status".toList := by
    unfold event_status
    simp only [gS, gV]
    cases hv : get_json_string with_status "status".toList <;> rfl
  have et : event_type with_action = event_type with_status := by
    unfold event_type get_json_string
    rw [hrest _ (by decide) (by decide)]
  have ei : event_id with_action = event_id with_status := by
    unfold event_id get_json_string
    rw [hrest _ (by decide) (by decide)]
  have etm : event_time with_action = event_time with_status := by
    unfold event_time
    rw [hrest _ (by decide) (by decide)]
  have eac : event_actor with_action = event_actor with_status :=
    hrest _ (by decide) (by decide)
  refine ⟨?_, ?_, es, ea.trans es.symm, ?_⟩
  · intro root
    unfold event_status
    simp only []
    cases hv : get_json_string root "Action".toList <;> rfl
  · intro root evt sev h
    obtain ⟨_, hacc, hl, he⟩ := handle_event_notification x d root evt sev h
    exact ⟨hacc, hl, he⟩
  · exact handle_event_congr x d with_action with_status (h1.trans h2.symm) et
      (ea.trans es.symm) ei etm eac

/-- C19 (witness): scenario A with the action in `Action`, and with the action in `status`. -/
theorem C19_action_witness :
    (event_status sample.container_die_legacy = "die".toList ∧
     notifications (handle_event sample.quiet (sample.object sample.allow_everything)
       sample.container_die_legacy).log =
       [((sample.object sample.allow_everything).rendered sample.container_die,
         event_severity.SEV_EVT_WARNING)]) ∧
    (event_status sample.container_die = event_status sample.container_die_legacy ∧
     (handle_event sample.quiet (sample.object sample.allow_everything)
       sample.container_die).stopped =
     (handle_event sample.quiet (sample.object sample.allow_everything)
       sample.container_die_legacy).stopped ∧
     (handle_event sample.quiet (sample.object sample.allow_everything)
       sample.container_die).queries =
     (handle_event sample.quiet (sample.object sample.allow_everything)
       sample.container_die_legacy).queries ∧
     notifications (handle_event sample.quiet (sample.object sample.allow_everything)
       sample.container_die).log =
     notifications (handle_event sample.quiet (sample.object sample.allow_everything)
       sample.container_die_legacy).log ∧
     diagnostics severity.SEV_ERROR (handle_event sample.quiet
       (sample.object sample.allow_everything) sample.container_die).log =
     diagnostics severity.SEV_ERROR (handle_event sample.quiet
       (sample.object sample.allow_everything) sample.container_die_legacy).log) :=
  ⟨by decide,
   (C19_action sample.quiet (sample.object sample.allow_everything) sample.container_die
     sample.container_die_legacy rfl rfl rfl rfl rfl
     (by
       intro key hka hks
       have e1 : (key == "Action".toList) = false := beq_eq_false_iff_ne.mpr hka
       have e2 : (key == "status".toList) = false := beq_eq_false_iff_ne.mpr hks
       simp only [sample.container_die, sample.container_die_legacy, Json.member,
           List.lookup_cons, e1, e2])).2.2.2⟩
